import Mathlib

/-!
Verification development for the theme loading / live theme switching
subsystem of a desktop chat application
(`src/Telegram/SourceFiles/window/window_theme.cpp`).

The C++ code is shallowly embedded: pure helpers become Lean functions,
the stateful singleton (`Data` / `ChatBackground` / `Applying`) becomes
explicit state passing over a `Globals` structure, machine integers are
`Nat`, `QByteArray` is `List Nat` (bytes), `QLatin1String` is `List Char`,
`QImage`/`QPixmap` are an explicit pixel-matrix structure (null images are
`Option`).  External collaborators that are not part of the translated file
(the style palette registry, the zlib container reader, the image codecs,
`base::parse` helpers, local storage) are modelled from the specification
and marked as such in their doc comments.
-/

set_option autoImplicit false

namespace WindowTheme

/-! ## Colors and the palette registry (modelled collaborator) -/

/-- An RGBA color with byte channels. -/
structure RGBA where
  r : Nat
  g : Nat
  b : Nat
  a : Nat
  deriving DecidableEq, Repr

/-- Modelled from the spec: the palette registry is an external key-value
store mapping named style identifiers to RGBA colors.  We represent it as
an association list from names (`List Char`) to colors; the key set is the
set of *known* palette names. -/
def PaletteMap := List (List Char × RGBA)

instance : DecidableEq PaletteMap := by
  unfold PaletteMap
  infer_instance

/-- Look a name up in the palette; `none` when the name is unknown. -/
def palLookup (pal : PaletteMap) (name : List Char) : Option RGBA :=
  match pal.find? (fun e => e.1 = name) with
  | some e => some e.2
  | none => none

/-- Modelled from the spec: `style::palette::setColor(name, r, g, b, a)` —
updates a *known* name and reports `true`, reports `false` for an unknown
name (leaving the palette unchanged). -/
def palSetColor (pal : PaletteMap) (name : List Char) (c : RGBA) : PaletteMap × Bool :=
  if (pal.find? (fun e => e.1 = name)).isSome then
    (pal.map (fun e => if e.1 = name then (e.1, c) else e), true)
  else
    (pal, false)

/-- Modelled from the spec: `style::palette::setColor(name, from)` — looks
up `from` as a palette name and, when both names are known, copies its
color onto `name`; reports `false` if either name is unknown. -/
def palSetNamed (pal : PaletteMap) (name fromName : List Char) : PaletteMap × Bool :=
  match palLookup pal fromName with
  | some c => palSetColor pal name c
  | none => (pal, false)

/-! ## Color-scheme text parser

`base::parse::skipWhitespaces`, `readName` and `stripComments` live in
`core/parse_helper` which is not part of the translated file; they are
modelled from the spec: free whitespace between tokens, identifiers as
names, `//` line and `/* */` block comments stripped beforehand. -/

/-- Modelled from the spec: whitespace characters skipped between tokens. -/
def isWsChar (c : Char) : Bool :=
  c = ' ' ∨ c = '\n' ∨ c = '\t' ∨ c = '\r'

/-- Modelled from the spec: characters that form an identifier (a name). -/
def isNameChar (c : Char) : Bool :=
  c.isAlpha ∨ c.isDigit ∨ c = '_'

/-- Modelled from the spec: strip `//` line comments and `/* */` block
comments from the content before parsing (fuel-driven scan; the fuel is
the length of the input, each step consumes at least one character). -/
def stripCommentsGo : Nat → List Char → List Char
  | 0, _ => []
  | _ + 1, [] => []
  | fuel + 1, '/' :: '/' :: rest =>
      stripCommentsGo fuel (rest.dropWhile (fun c => ¬ c = '\n'))
  | fuel + 1, '/' :: '*' :: rest =>
      stripCommentsGo fuel (dropBlock rest)
  | fuel + 1, c :: rest => c :: stripCommentsGo fuel rest
where
  /-- Drop up to and including the closing `*/` of a block comment. -/
  dropBlock : List Char → List Char
    | '*' :: '/' :: rest => rest
    | _ :: rest => dropBlock rest
    | [] => []

/-- Strip comments from scheme content (entry point). -/
def stripComments (s : List Char) : List Char :=
  stripCommentsGo (s.length + 1) s

/-- Result of `readNameAndValue`: either the end of the content was
reached cleanly (`finished`, the C++ `return true` with an empty name), a
`name: value;` entry was read, or a structural violation occurred
(`failed`, the C++ `return false`). -/
inductive ParseStep where
  | finished
  | entry (name value rest : List Char)
  | failed
  deriving DecidableEq, Repr

/-- Embeds `readNameAndValue` (window_theme.cpp lines 89–131): skip
whitespace (end of input here is clean termination), read a name, require
`:`, read a value token that may start with `#`, require `;`. -/
def readNameAndValue (s : List Char) : ParseStep :=
  let s0 := s.dropWhile isWsChar
  if s0 = [] then .finished
  else
    let name := s0.takeWhile isNameChar
    let s1 := s0.dropWhile isNameChar
    if name = [] then .failed
    else
      let s2 := s1.dropWhile isWsChar
      match s2 with
      | [] => .failed
      | c :: s3 =>
        if c = ':' then
          let s4 := s3.dropWhile isWsChar
          match s4 with
          | [] => .failed
          | d :: s5 =>
            let hashed := d = '#'
            let body := if hashed then s5 else d :: s5
            let vname := body.takeWhile isNameChar
            let s6 := body.dropWhile isNameChar
            if vname = [] then .failed
            else
              let value := (if hashed then ['#'] else []) ++ vname
              let s7 := s6.dropWhile isWsChar
              match s7 with
              | [] => .failed
              | e :: s8 => if e = ';' then .entry name value s8 else .failed
        else .failed

/-- Embeds `readHexUchar(char, bool&)` (lines 73–83): hex digit value, or
`0xFF` with the error flag set. -/
def readHexUchar (c : Char) : Nat × Bool :=
  if 48 ≤ c.toNat ∧ c.toNat ≤ 57 then ((c.toNat - 48) &&& 0xFF, false)
  else if 97 ≤ c.toNat ∧ c.toNat ≤ 102 then ((c.toNat + 10 - 97) &&& 0xFF, false)
  else if 65 ≤ c.toNat ∧ c.toNat ≤ 70 then ((c.toNat + 10 - 65) &&& 0xFF, false)
  else (0xFF, true)

/-- Embeds `readHexUchar(char, char, bool&)` (lines 85–87): a byte from two
hex digits; the error flag accumulates. -/
def readHexUchar2 (c1 c2 : Char) : Nat × Bool :=
  let (v1, e1) := readHexUchar c1
  let (v2, e2) := readHexUchar c2
  ((((v1 &&& 0x0F) <<< 4) ||| (v2 &&& 0x0F)), e1 || e2)

/-- Result kind of `setColorSchemeValue` (lines 133–137). -/
inductive SetResult where
  | Ok
  | Bad
  | NotFound
  deriving DecidableEq, Repr

/-- Embeds `setColorSchemeValue` (lines 138–164): a `#`-token of exactly 7
or 9 characters is parsed as hex channels (alpha defaults to 255 for the
7-character form; any bad digit is `Bad`), every other token is treated as
a named-color reference.  The palette is returned alongside the result
(the C++ mutates the sink in place). -/
def setColorSchemeValue (name value : List Char) (pal : PaletteMap) :
    SetResult × PaletteMap :=
  if value.getD 0 ' ' = '#' ∧ (value.length = 7 ∨ value.length = 9) then
    let (r, er) := readHexUchar2 (value.getD 1 ' ') (value.getD 2 ' ')
    let (g, eg) := readHexUchar2 (value.getD 3 ' ') (value.getD 4 ' ')
    let (b, eb) := readHexUchar2 (value.getD 5 ' ') (value.getD 6 ' ')
    let (a, ea) :=
      if value.length = 9 then readHexUchar2 (value.getD 7 ' ') (value.getD 8 ' ')
      else (255, false)
    if er || eg || eb || ea then (.Bad, pal)
    else
      let (pal', found) := palSetColor pal name ⟨r, g, b, a⟩
      (if found then .Ok else .NotFound, pal')
  else
    let (pal', found) := palSetNamed pal name value
    (if found then .Ok else .NotFound, pal')

/-- The `unsupported` map of `loadColorScheme` (a `QMap` keyed by the
entry name, holding the entry's — already substituted — value). -/
def Unsupported := List (List Char × List Char)

/-- Lookup with default, `QMap::value(key, default)`. -/
def unsLookup (u : Unsupported) (key dflt : List Char) : List Char :=
  match u.find? (fun e => e.1 = key) with
  | some e => e.2
  | none => dflt

/-- Insert-or-overwrite, `QMap::insert`. -/
def unsInsert (u : Unsupported) (key v : List Char) : Unsupported :=
  if (u.find? (fun e => e.1 = key)).isSome then
    u.map (fun e => if e.1 = key then (e.1, v) else e)
  else
    (key, v) :: u

/-- The `while (from != end)` loop of `loadColorScheme` (lines 175–194),
fuel-driven; each successful `readNameAndValue` strictly shrinks the
remaining input, so `length + 1` fuel always suffices. -/
def loadColorSchemeGo : Nat → List Char → PaletteMap → Unsupported → Bool × PaletteMap
  | 0, _, pal, _ => (false, pal)
  | fuel + 1, s, pal, uns =>
    if s = [] then (true, pal)
    else
      match readNameAndValue s with
      | .failed => (false, pal)
      | .finished => (true, pal)
      | .entry name value rest =>
        let value := unsLookup uns value value
        let (result, pal') := setColorSchemeValue name value pal
        match result with
        | .Bad => (false, pal')
        | .NotFound => loadColorSchemeGo fuel rest pal' (unsInsert uns name value)
        | .Ok => loadColorSchemeGo fuel rest pal' uns

/-- Scheme content size cap, `kThemeSchemeSizeLimit` (line 37). -/
def kThemeSchemeSizeLimit : Nat := 1024 * 1024

/-- Embeds `loadColorScheme` (lines 166–196): size cap, comment stripping,
then the entry loop.  Returns success together with the (possibly
partially updated) palette sink. -/
def loadColorScheme (content : List Char) (pal : PaletteMap) : Bool × PaletteMap :=
  if content.length > kThemeSchemeSizeLimit then (false, pal)
  else
    let data := stripComments content
    loadColorSchemeGo (data.length + 1) data pal []

/-! ## Images and the codec (modelled collaborator) -/

/-- A decoded bitmap: a pixel matrix (`rows`, one list per scan line) with
its declared dimensions.  Pixel format tags and the device-pixel-ratio tag
of `QImage` are not modelled (format conversions are identities on the
pixel data). -/
structure Image where
  width : Nat
  height : Nat
  rows : List (List Nat)
  deriving DecidableEq, Repr

/-- Well-formedness of an image: the declared dimensions describe `rows`. -/
def Image.wf (img : Image) : Prop :=
  img.rows.length = img.height ∧ ∀ r ∈ img.rows, r.length = img.width

instance (img : Image) : Decidable img.wf := by
  unfold Image.wf
  infer_instance

/-- Placeholder image for unreachable `Option.getD` defaults. -/
def dummyImage : Image := ⟨0, 0, []⟩

/-- Modelled from the spec: the image codec black box (`App::readImage`,
`QImageReader`).  The cache stores a lossless encoding; we model it as the
dimensions followed by the row-major pixel data and the decoder rejects
any byte string not of that shape (decode failure on garbage). -/
def decodeImage (bytes : List Nat) : Option Image :=
  match bytes with
  | w :: h :: pixels =>
    if 0 < w ∧ 0 < h ∧ pixels.length = w * h then
      some ⟨w, h, (List.range h).map (fun y => (pixels.drop (y * w)).take w)⟩
    else none
  | _ => none

/-- Modelled from the spec: the lossless (BMP) encoder used for the cache
record; inverse of `decodeImage`. -/
def encodeBMP (img : Image) : List Nat :=
  img.width :: img.height :: img.rows.flatten

/-- Embeds `prepareBackgroundImage` (lines 325–331): format normalization
and density tagging, identities on the modelled pixel data. -/
def prepareBackgroundImage (img : Image) : Image := img

/-! ## Tiling synthesis (lines 433–460) -/

/-- Minimum tile threshold `kMinimumTiledSize` (line 39). -/
def kMinimumTiledSize : Nat := 512

/-- One output scan line of the tiled canvas: `repeatTimesX` copies of a
source scan line laid side by side (the inner `memcpy` loop). -/
def dupRow (rx : Nat) (r : List Nat) : List Nat :=
  (List.replicate rx r).flatten

/-- The tiled canvas synthesized by `setPreparedImage` when the source is
below the threshold: repeat counts `ceil(512/dim)` per axis (`qCeil` over
exact small quotients), every source scan line repeated `repeatTimesX`
times within a line and the whole block repeated `repeatTimesY` times. -/
def makeTiledImage (img : Image) : Image :=
  let rx := (kMinimumTiledSize + img.width - 1) / img.width
  let ry := (kMinimumTiledSize + img.height - 1) / img.height
  { width := img.width * rx
    height := img.height * ry
    rows := (List.replicate ry (img.rows.map (dupRow rx))).flatten }

/-- The `(_pixmap, _pixmapForTiled)` pair produced by the tail of
`setPreparedImage` (lines 433–460): a small image gets a synthesized tiled
canvas, otherwise the tiled pixmap aliases the main one. -/
def preparedPixmaps (img : Image) : Image × Image :=
  if img.width < kMinimumTiledSize ∨ img.height < kMinimumTiledSize then
    (img, makeTiledImage img)
  else
    (img, img)

/-- Pixel accessor (out-of-range reads default to 0). -/
def Image.pixel (img : Image) (x y : Nat) : Nat :=
  (img.rows.getD y []).getD x 0

/-! ## The zip container (modelled collaborator) -/

/-- Modelled from the spec: the view of the theme bytes as a zip-like
container, as exposed by the `zlib::FileToRead` collaborator.  An entry
maps a (case-insensitively matched, stored here lowercased) name to
`some bytes` when readable or `none` when reading it fails. -/
def Archive := List (String × Option (List Nat))

/-- Result classification of `loadBackgroundFromFile` (lines 237–241). -/
inductive LoadResult where
  | Loaded
  | Failed
  | NotFound
  deriving DecidableEq, Repr

/-- Size cap for a background entry, `kThemeBackgroundSizeLimit`. -/
def kThemeBackgroundSizeLimit : Nat := 4 * 1024 * 1024

/-- Modelled from the spec: `zlib::FileToRead::readFileContent` with a size
limit — a missing entry is `UNZ_END_OF_LIST_OF_FILE`, a present but
unreadable (or over-limit) entry is a read error, otherwise the bytes. -/
def readFileContentA (file : Archive) (name : String) (limit : Nat) :
    LoadResult × List Nat :=
  match file.find? (fun e => e.1 = name) with
  | none => (.NotFound, [])
  | some (_, none) => (.Failed, [])
  | some (_, some bytes) =>
    if bytes.length > limit then (.Failed, []) else (.Loaded, bytes)

/-- Embeds `loadBackgroundFromFile` (lines 243–253): classify one probe,
writing the read bytes through `*outBackground`. -/
def loadBackgroundFromFile (file : Archive) (name : String) :
    LoadResult × List Nat :=
  readFileContentA file name kThemeBackgroundSizeLimit

/-- Embeds `loadBackground` (lines 255–269): probe `background.jpg`,
`background.png`, `tiled.jpg`, `tiled.png` in that order; the first probe
that does not report `NotFound` decides the outcome; the tiled flag is set
to true just before the `tiled.*` probes.  Returns
`(success, outBackground, outTiled)`. -/
def loadBackground (file : Archive) : Bool × List Nat × Bool :=
  let p1 := loadBackgroundFromFile file "background.jpg"
  if p1.1 ≠ .NotFound then (p1.1 = .Loaded, p1.2, false)
  else
    let p2 := loadBackgroundFromFile file "background.png"
    if p2.1 ≠ .NotFound then (p2.1 = .Loaded, p2.2, false)
    else
      let p3 := loadBackgroundFromFile file "tiled.jpg"
      if p3.1 ≠ .NotFound then (p3.1 = .Loaded, p3.2, true)
      else
        let p4 := loadBackgroundFromFile file "tiled.png"
        if p4.1 ≠ .NotFound then (p4.1 = .Loaded, p4.2, true)
        else (true, p4.2, true)

/-! ## CRC32 (modelled collaborator `hashCrc32`) -/

/-- The reflected CRC-32 generator polynomial. -/
def crcPoly : Nat := 0xEDB88320

/-- One bit step of the standard (zlib) CRC-32. -/
def crcStep1 (c : Nat) : Nat :=
  (c >>> 1) ^^^ (if c % 2 = 1 then crcPoly else 0)

/-- One byte step: xor the byte into the state, then eight bit steps. -/
def crcByte (c b : Nat) : Nat :=
  crcStep1^[8] (c ^^^ b)

/-- Modelled from the spec: `hashCrc32(data, size)` — the standard CRC-32
checksum of a byte string. -/
def hashCrc32 (bytes : List Nat) : Nat :=
  (bytes.foldl crcByte 0xFFFFFFFF) ^^^ 0xFFFFFFFF

/-! ## Cached, Instance, the singleton state -/

/-- Modelled from the spec: a serialized palette blob is represented
abstractly by the palette it encodes; `none` stands for a blob that the
registry's `load` rejects (a malformed blob).  An *empty* byte array
(`QByteArray()`) is a malformed blob as well, so default-constructed blob
fields are `none`. -/
def PaletteBlob := Option PaletteMap

instance : DecidableEq PaletteBlob := by
  unfold PaletteBlob
  infer_instance

/-- Modelled from the spec: `style::main_palette::save()` never produces a
malformed (or empty) blob. -/
def paletteSave (pal : PaletteMap) : PaletteBlob := some pal

/-- Modelled from the spec: the registry's compile-time palette layout
checksum `style::palette::Checksum()` (an arbitrary fixed value; only
equality with itself matters). -/
def paletteRegistryChecksum : Nat := 0x7a3b9c1

/-- The `Cached` record (declared in window_theme.h, modelled from the
spec's cache record layout): checksums, palette blob, encoded background
bytes and the tiled flag. -/
structure Cached where
  paletteChecksum : Nat
  contentChecksum : Nat
  colors : PaletteBlob
  background : List Nat
  tiled : Bool
  deriving DecidableEq

/-- Default-constructed `Cached()`. -/
def Cached.default : Cached := ⟨0, 0, none, [], false⟩

/-- The `Instance` theme-result bundle (declared in window_theme.h,
modelled from the spec): palette deltas applied over the default registry
palette, decoded background, tiling flag, `Cached` record. -/
structure ThemeInstance where
  palette : PaletteMap
  background : Option Image
  tiled : Bool
  cached : Cached
  deriving DecidableEq

/-- Background id sentinels (declared in window_theme.h, modelled from the
spec: distinct sentinel values for the built-in states; positive values
are user-chosen custom backgrounds). -/
def kUninitializedBackground : Int := -999

/-- Testing-theme preview background id. -/
def kTestingThemeBackground : Int := -666

/-- Testing-default preview background id. -/
def kTestingDefaultBackground : Int := -665

/-- Theme-provided background id. -/
def kThemeBackground : Int := -2

/-- First-run artwork background id. -/
def kInitialBackground : Int := 0

/-- Fallback artwork background id. -/
def kDefaultBackground : Int := 105

/-- The `ChatBackground` state (fields of the class, lines 374–580):
current id and tile flag, the active theme's image/tile, prepared pixmaps
(`none` = null pixmap), and the pre-preview revert snapshot. -/
structure ChatBackgroundState where
  id : Int
  tile : Bool
  themeImage : Option Image
  themeTile : Bool
  pixmap : Option Image
  pixmapForTiled : Option Image
  idForRevert : Int
  imageForRevert : Option Image
  tileForRevert : Bool
  deriving DecidableEq, Repr

/-- The `Data::Applying` pending-commit record (lines 42–47): preview
path (`none` = empty `QString`), raw content, palette snapshot blob and
cache record. -/
structure Applying where
  path : Option String
  content : List Nat
  paletteForRevert : PaletteBlob
  cached : Cached
  deriving DecidableEq

/-- Default-constructed `Data::Applying()`. -/
def Applying.default : Applying := ⟨none, [], none, Cached.default⟩

/-- The process-wide singleton state `Data` plus the external live palette
registry `style::main_palette` (mutated by this code, owned elsewhere). -/
structure Globals where
  palette : PaletteMap
  background : ChatBackgroundState
  applying : Applying
  deriving DecidableEq

/-- Modelled from the spec: the environment of external collaborators a
run can observe — the ambient service-color derivation
(`initColorsFromBackground`, floating-point HSL arithmetic abstracted as a
deterministic palette transformer), `Local::hasTheme()`,
`Local::readBackground()` success, and the zlib container view of raw
bytes. -/
structure Env where
  ambient : Image → PaletteMap → PaletteMap
  hasTheme : Bool
  localReadBackground : Bool
  unzip : List Nat → Option Archive

/-! ## Cache fast path and full load (lines 198–323) -/

/-- Embeds `setThemeData` (lines 374–377): store the prepared theme image
and its tile flag. -/
def setThemeData (g : Globals) (img : Image) (tile : Bool) : Globals :=
  { g with background :=
      { g.background with
          themeImage := some (prepareBackgroundImage img)
          themeTile := tile } }

/-- Embeds the `out == nullptr` arm of `applyBackground` (lines 198–205):
hand the decoded image to the global `ChatBackground`. -/
def applyBackgroundGlobal (g : Globals) (img : Image) (tile : Bool) : Globals :=
  setThemeData g img tile

/-- Embeds `loadThemeFromCache` (lines 207–235): both checksums must match
(palette layout checksum against the registry constant, content checksum
against the CRC-32 of the raw bytes), a nonempty cached background must
decode, the palette blob must load; then the palette and (if present) the
background are applied to the live state. -/
def loadThemeFromCache (g : Globals) (content : List Nat) (cache : Cached) :
    Bool × Globals :=
  if cache.paletteChecksum ≠ paletteRegistryChecksum then (false, g)
  else if cache.contentChecksum ≠ hashCrc32 content then (false, g)
  else
    let decoded : Option (Option Image) :=
      if cache.background = [] then some none
      else
        match decodeImage cache.background with
        | some img => some (some img)
        | none => none
    match decoded with
    | none => (false, g)
    | some bgOpt =>
      match cache.colors with
      | none => (false, g)
      | some pal =>
        let g := { g with palette := pal }
        match bgOpt with
        | some img => (true, applyBackgroundGlobal g img cache.tiled)
        | none => (true, g)

/-- Result bundle of `loadTheme` (the C++ returns `bool` and writes its
`cache`, `out` and — through the palette sink and `applyBackground` — the
global state). -/
structure LoadThemeResult where
  ok : Bool
  cache : Cached
  globals : Globals
  out : Option ThemeInstance
  deriving DecidableEq

/-- Convert raw bytes to scheme characters (a `QByteArray` is parsed as
Latin-1 characters). -/
def bytesToChars (bytes : List Nat) : List Char :=
  bytes.map Char.ofNat

/-- Route a color-scheme parse to the private instance palette or to the
live registry, mirroring the `out ? out->palette : style::main_palette`
dispatch inside `setColorSchemeValue`/`applyBackground`. -/
def sinkPalette (g : Globals) (out : Option ThemeInstance) : PaletteMap :=
  match out with
  | some inst => inst.palette
  | none => g.palette

/-- Write the parsed palette back to the sink chosen by `out`. -/
def writeSinkPalette (g : Globals) (out : Option ThemeInstance) (pal : PaletteMap) :
    Globals × Option ThemeInstance :=
  match out with
  | some inst => (g, some { inst with palette := pal })
  | none => ({ g with palette := pal }, out)

/-- Embeds `applyBackground` (lines 198–205) with its `out` routing. -/
def applyBackgroundRouted (g : Globals) (out : Option ThemeInstance)
    (img : Image) (tile : Bool) : Globals × Option ThemeInstance :=
  match out with
  | some inst => (g, some { inst with background := some img, tiled := tile })
  | none => (applyBackgroundGlobal g img tile, none)

/-- Embeds `loadTheme` (lines 271–323).  `arch` is the zlib view of
`content` (`none` when the content does not open as a zip archive; then
the whole content is a bare color scheme).  On the packaged path the color
scheme entry is required, the background is probed via `loadBackground`,
decoded, re-encoded for the cache; afterwards the cache record is stamped
with the palette snapshot and both checksums. -/
def loadTheme (g : Globals) (arch : Option Archive) (content : List Nat)
    (out : Option ThemeInstance) : LoadThemeResult :=
  let cache := Cached.default
  match arch with
  | some file =>
    let probe := readFileContentA file "colors.tdesktop-theme" kThemeSchemeSizeLimit
    if probe.1 ≠ .Loaded then ⟨false, cache, g, out⟩
    else
      let scheme := loadColorScheme (bytesToChars probe.2) (sinkPalette g out)
      let sunk := writeSinkPalette g out scheme.2
      let g := sunk.1
      let out := sunk.2
      if ¬ scheme.1 then ⟨false, cache, g, out⟩
      else
        let bg := loadBackground file
        if ¬ bg.1 then ⟨false, cache, g, out⟩
        else
          if bg.2.1 ≠ [] then
            match decodeImage bg.2.1 with
            | none => ⟨false, cache, g, out⟩
            | some background =>
              let cache := { cache with
                background := encodeBMP background
                tiled := bg.2.2 }
              let routed := applyBackgroundRouted g out background cache.tiled
              let g := routed.1
              let out := routed.2
              let cache := { cache with
                colors := paletteSave (sinkPalette g out)
                paletteChecksum := paletteRegistryChecksum
                contentChecksum := hashCrc32 content }
              ⟨true, cache, g, out⟩
          else
            let cache := { cache with
              colors := paletteSave (sinkPalette g out)
              paletteChecksum := paletteRegistryChecksum
              contentChecksum := hashCrc32 content }
            ⟨true, cache, g, out⟩
  | none =>
    let scheme := loadColorScheme (bytesToChars content) (sinkPalette g out)
    let sunk := writeSinkPalette g out scheme.2
    let g := sunk.1
    let out := sunk.2
    if ¬ scheme.1 then ⟨false, cache, g, out⟩
    else
      let cache := { cache with
        colors := paletteSave (sinkPalette g out)
        paletteChecksum := paletteRegistryChecksum
        contentChecksum := hashCrc32 content }
      ⟨true, cache, g, out⟩

/-- Embeds `Load` (lines 588–604): reject content under 4 bytes, try the
cache fast path, otherwise run the full load (persisting the fresh cache
record through `Local::writeTheme` is an external side effect).  Returns
`(success, cache, globals)`. -/
def LoadOp (g : Globals) (arch : Option Archive) (content : List Nat)
    (cache : Cached) : Bool × Cached × Globals :=
  if content.length < 4 then (false, cache, g)
  else
    let (okCache, g') := loadThemeFromCache g content cache
    if okCache then (true, cache, g')
    else
      let r := loadTheme g' arch content none
      if ¬ r.ok then (false, r.cache, r.globals)
      else (true, r.cache, r.globals)

/-! ## The ChatBackground state machine (lines 374–580) -/

/-- Embeds the head of `setPreparedImage` (lines 420–431): premultiplied
conversion (identity on pixels), then — unless the current id denotes the
theme background or its testing variant — the ambient service-color
derivation driven by `Local::hasTheme()` / the pending preview's path;
finally the pixmap pair of lines 433–460. -/
def setPreparedImage (env : Env) (g : Globals) (img : Image) : Globals :=
  let g :=
    if g.background.id ≠ kThemeBackground ∧ g.background.id ≠ kTestingThemeBackground then
      let colorsFromSomeTheme : Bool :=
        match g.applying.paletteForRevert with
        | some _ => g.applying.path.isSome
        | none => env.hasTheme
      if colorsFromSomeTheme = true ∨
          (g.background.id ≠ kDefaultBackground ∧ g.background.id ≠ kTestingDefaultBackground) then
        { g with palette := env.ambient img g.palette }
      else g
    else g
  { g with background :=
      { g.background with
          pixmap := some (preparedPixmaps img).1
          pixmapForTiled := some (preparedPixmaps img).2 } }

/-- Modelled from the spec: the built-in fallback artwork
`:/gui/art/bg.jpg` (pixel data irrelevant to the verified claims). -/
def builtinDefaultImage : Image := ⟨512, 512, []⟩

/-- Modelled from the spec: the built-in first-run artwork
`:/gui/art/bg_initial.png` after device-scale resizing. -/
def builtinInitialImage : Image := ⟨512, 512, []⟩

/-- Embeds `setImage` (lines 387–418): the central setter with its id
rewriting — theme id without a theme image downgrades to default, a
testing id with a null image forces the testing-default artwork, the
initial/default ids load built-in artwork; every path ends in
`setPreparedImage` (persisting through `Local::writeBackground` and the
notification broadcast are external side effects). -/
def setImage (env : Env) (g : Globals) (id : Int) (image : Option Image) : Globals :=
  let id := if id = kThemeBackground ∧ g.background.themeImage = none
    then kDefaultBackground else id
  if id = kThemeBackground then
    let g := { g with background :=
      { g.background with id := id, tile := g.background.themeTile } }
    setPreparedImage env g (g.background.themeImage.getD dummyImage)
  else if id = kTestingThemeBackground ∨ id = kTestingDefaultBackground then
    if id = kTestingDefaultBackground ∨ image = none then
      let g := { g with background := { g.background with id := kTestingDefaultBackground } }
      setPreparedImage env g builtinDefaultImage
    else
      let g := { g with background := { g.background with id := id } }
      setPreparedImage env g (image.getD dummyImage)
  else
    if id = kInitialBackground then
      let g := { g with background := { g.background with id := id } }
      setPreparedImage env g (prepareBackgroundImage builtinInitialImage)
    else if id = kDefaultBackground ∨ image = none then
      let g := { g with background := { g.background with id := kDefaultBackground } }
      setPreparedImage env g (prepareBackgroundImage builtinDefaultImage)
    else
      let g := { g with background := { g.background with id := id } }
      setPreparedImage env g (prepareBackgroundImage (image.getD dummyImage))

/-- Embeds `start` (lines 379–385): on an uninitialized id, restore the
persisted background (external storage restore abstracted as identity on
success) or fall back to the theme background. -/
def startBackground (env : Env) (g : Globals) : Globals :=
  if g.background.id = kUninitializedBackground then
    if env.localReadBackground then g
    else setImage env g kThemeBackground none
  else g

/-- Embeds `ensureStarted` (lines 479–485). -/
def ensureStarted (env : Env) (g : Globals) : Globals :=
  if g.background.pixmap = none then startBackground env g else g

/-- Embeds `setTile` (lines 487–496): no-op when unchanged (persisting the
user setting and the notification are external side effects). -/
def setTileOp (env : Env) (g : Globals) (tile : Bool) : Globals :=
  let g := ensureStarted env g
  if g.background.tile ≠ tile then
    { g with background := { g.background with tile := tile } }
  else g

/-- Embeds `saveForRevert` (lines 514–521): skipped while already in a
testing state; otherwise snapshot id, current pixmap (as an image) and the
tile flag. -/
def saveForRevert (env : Env) (g : Globals) : Globals :=
  let g := ensureStarted env g
  if g.background.id ≠ kTestingThemeBackground ∧
      g.background.id ≠ kTestingDefaultBackground then
    { g with background :=
        { g.background with
            idForRevert := g.background.id
            imageForRevert := g.background.pixmap
            tileForRevert := g.background.tile } }
  else g

/-- Embeds `setTestingTheme` (lines 523–534): apply the candidate palette
to the live registry, then — when the theme has a background or a theme
background is current — snapshot and switch to the testing background;
otherwise re-set the current image so service colors are recounted. -/
def setTestingTheme (env : Env) (g : Globals) (theme : ThemeInstance) : Globals :=
  let g := { g with palette := theme.palette }
  if theme.background.isSome ∨ g.background.id = kThemeBackground then
    let g := saveForRevert env g
    let g := setImage env g kTestingThemeBackground theme.background
    setTileOp env g theme.tiled
  else
    setImage env g g.background.id g.background.pixmap

/-- Embeds `ChatBackground::keepApplied` (lines 549–562): drop the testing
qualifier and freeze the pixmap as the theme image (persisting is an
external side effect). -/
def keepAppliedBackground (g : Globals) : Globals :=
  if g.background.id = kTestingThemeBackground then
    { g with background :=
        { g.background with
            id := kThemeBackground
            themeImage := g.background.pixmap
            themeTile := g.background.tile } }
  else if g.background.id = kTestingDefaultBackground then
    { g with background :=
        { g.background with
            id := kDefaultBackground
            themeImage := none
            themeTile := false } }
  else g

/-- Embeds `ChatBackground::revert` (lines 571–580): from a testing state
restore the snapshot via `setTile`/`setImage`; otherwise re-set the
current image to recount service colors. -/
def revertBackground (env : Env) (g : Globals) : Globals :=
  if g.background.id = kTestingThemeBackground ∨
      g.background.id = kTestingDefaultBackground then
    let g := setTileOp env g g.background.tileForRevert
    setImage env g g.background.idForRevert g.background.imageForRevert
  else
    setImage env g g.background.id g.background.pixmap

/-! ## Apply / KeepApplied / Revert orchestration (lines 610–670) -/

/-- The `Preview` record built by `Apply(filepath)` (path, parsed private
instance, raw content). -/
structure Preview where
  path : Option String
  content : List Nat
  inst : ThemeInstance

/-- Embeds `Apply(std_::unique_ptr<Preview>)` (lines 619–629): store path,
content and cache in the pending record, snapshot the live palette into
`paletteForRevert` only when no snapshot exists yet, then hand the
instance to `setTestingTheme`.  Always returns `true` in the C++. -/
def ApplyPreview (env : Env) (g : Globals) (preview : Preview) : Globals :=
  let g := { g with applying :=
      { path := preview.path
        content := preview.content
        cached := preview.inst.cached
        paletteForRevert :=
          match g.applying.paletteForRevert with
          | none => paletteSave g.palette
          | some p => some p } }
  setTestingTheme env g preview.inst

/-- Modelled from the spec: the registry's built-in default palette that
`style::main_palette::reset()` restores. -/
def basePalette : PaletteMap := []

/-- Embeds `setTestingDefaultTheme` (lines 536–547): reset the registry to
the built-in defaults, then preview the default background (or re-set the
current image when no theme background is active). -/
def setTestingDefaultTheme (env : Env) (g : Globals) : Globals :=
  let g := { g with palette := basePalette }
  if g.background.id = kThemeBackground then
    let g := saveForRevert env g
    let g := setImage env g kTestingDefaultBackground none
    setTileOp env g false
  else
    setImage env g g.background.id g.background.pixmap

/-- Embeds `ApplyDefault` (lines 631–640). -/
def ApplyDefaultOp (env : Env) (g : Globals) : Globals :=
  let g := { g with applying :=
      { path := none
        content := []
        cached := Cached.default
        paletteForRevert :=
          match g.applying.paletteForRevert with
          | none => paletteSave g.palette
          | some p => some p } }
  setTestingDefaultTheme env g

/-- Embeds `KeepApplied` on the singleton body (lines 646–651): persist
the pending theme (external), clear the pending record, commit the state
machine. -/
def KeepAppliedG (g : Globals) : Globals :=
  let g := { g with applying := Applying.default }
  keepAppliedBackground g

/-- Embeds `Revert` on the singleton body (lines 655–659): restore the
snapshotted palette if one exists, clear the pending record, revert the
state machine. -/
def RevertG (env : Env) (g : Globals) : Globals :=
  let g :=
    match g.applying.paletteForRevert with
    | some p => { g with palette := p }
    | none => g
  let g := { g with applying := Applying.default }
  revertBackground env g

/-- Theme file size cap, `kThemeFileSizeLimit` (line 35). -/
def kThemeFileSizeLimit : Nat := 5 * 1024 * 1024

/-- Embeds `readThemeContent` (lines 54–71) over a modelled filesystem
(spec: file-size/IO primitives are external): a missing, unopenable or
over-limit file yields an empty byte array. -/
def readThemeContent (fs : List (String × List Nat)) (path : String) : List Nat :=
  match fs.find? (fun e => e.1 = path) with
  | none => []
  | some (_, bytes) =>
    if bytes.length > kThemeFileSizeLimit then [] else bytes

/-- A default-constructed private `Instance` for a fresh `Preview`
(default-initialized palette, no background). -/
def freshInstance : ThemeInstance :=
  ⟨basePalette, none, false, Cached.default⟩

/-- Embeds `LoadFromFile` (lines 662–670): read the file, reject short
content, then run the full parse into the private instance.  Returns
`(success, instance, content, globals)` — the globals are threaded so the
no-mutation property is a theorem rather than a modelling assumption. -/
def LoadFromFile (env : Env) (g : Globals) (fs : List (String × List Nat))
    (path : String) (out : ThemeInstance) :
    Bool × ThemeInstance × List Nat × Globals :=
  let content := readThemeContent fs path
  if content.length < 4 then (false, out, content, g)
  else
    let r := loadTheme g (env.unzip content) content (some out)
    (r.ok, { r.out.getD out with cached := r.cache }, content, r.globals)

/-- Embeds `Apply(const QString&)` (lines 610–617): build a preview, parse
the candidate fully into it, and only on success hand it to
`Apply(preview)`. -/
def ApplyPath (env : Env) (g : Globals) (fs : List (String × List Nat))
    (path : String) : Bool × Globals :=
  let r := LoadFromFile env g fs path freshInstance
  if ¬ r.1 then (false, r.2.2.2)
  else (true, ApplyPreview env r.2.2.2 ⟨some path, r.2.2.1, r.2.1⟩)

/-- Embeds `KeepApplied()` (lines 642–652) at the nullable-singleton
level: the outer `Option` is normal termination, the inner one the
singleton pointer.  `KeepApplied` checks `!instance` and returns. -/
def KeepAppliedOp (inst : Option Globals) : Option (Option Globals) :=
  match inst with
  | none => some none
  | some g => some (some (KeepAppliedG g))

/-- Embeds `Revert()` (lines 654–660) at the nullable-singleton level: the
body dereferences `instance->applying` without a null check, so a null
singleton is a crash (`none`). -/
def RevertOp (env : Env) (inst : Option Globals) : Option (Option Globals) :=
  match inst with
  | none => none
  | some g => some (some (RevertG env g))

/-! ## Shared concrete instances for witnesses and counterexamples -/

/-- A concrete environment: identity ambient derivation, no stored theme,
no persisted background, nothing unzips. -/
def env0 : Env := ⟨fun _ p => p, false, false, fun _ => none⟩

/-- A demo palette with known names `a` and `b`. -/
def demoPalAB : PaletteMap :=
  [("a".toList, ⟨0, 0, 0, 255⟩), ("b".toList, ⟨0, 0, 0, 255⟩)]

/-- A demo palette whose only known name is `c`. -/
def demoPalC : PaletteMap := [("c".toList, ⟨0, 0, 0, 255⟩)]

/-- A demo global state: default background active, nothing pending. -/
def demoGlobals : Globals :=
  { palette := demoPalAB
    background :=
      { id := kDefaultBackground
        tile := false
        themeImage := none
        themeTile := false
        pixmap := some builtinDefaultImage
        pixmapForTiled := some builtinDefaultImage
        idForRevert := kDefaultBackground
        imageForRevert := none
        tileForRevert := false }
    applying := Applying.default }

/-! ## C10 — null-singleton behavior of Revert vs KeepApplied -/

/-- C10: `Revert()` dereferences the process-wide singleton without a null
check — called before the singleton exists it crashes (modelled as `none`)
— whereas `KeepApplied()` checks `!instance` and returns as a no-op
leaving the (absent) singleton untouched. -/
theorem C10_revert_null_unchecked :
    (∀ env : Env, RevertOp env none = none) ∧ KeepAppliedOp none = some none :=
  ⟨fun _ => rfl, rfl⟩

/-! ## C8 — a failed Apply never mutates the live state -/

/-- Helper: `loadTheme` parsing into a private instance leaves the live
globals (palette registry and chat background) untouched, on every branch,
successful or not. -/
theorem loadTheme_private_globals (g : Globals) (arch : Option Archive)
    (content : List Nat) (inst : ThemeInstance) :
    (loadTheme g arch content (some inst)).globals = g := by
  cases arch with
  | none =>
    simp only [loadTheme, sinkPalette, writeSinkPalette]
    split <;> rfl
  | some file =>
    simp only [loadTheme, sinkPalette, writeSinkPalette, applyBackgroundRouted]
    split
    · rfl
    · split
      · rfl
      · split
        · rfl
        · split
          · split
            · rfl
            · rfl
          · rfl

/-- C8: a failed `Apply(filepath)` — unreadable file, short content, or a
parse failure — does not mutate the live palette registry or the chat
background: `loadTheme` with a private `Instance` sink never touches the
globals, and `ApplyPath` returns the globals unchanged whenever it reports
failure. -/
theorem C8_failed_apply_preserves_state :
    (∀ (g : Globals) (arch : Option Archive) (content : List Nat) (inst : ThemeInstance),
      (loadTheme g arch content (some inst)).globals = g) ∧
    (∀ (env : Env) (g : Globals) (fs : List (String × List Nat)) (path : String),
      (ApplyPath env g fs path).1 = false → (ApplyPath env g fs path).2 = g) := by
  constructor
  · exact loadTheme_private_globals
  · intro env g fs path h
    have hpres : ∀ out, (LoadFromFile env g fs path out).2.2.2 = g := by
      intro out
      simp only [LoadFromFile]
      split
      · rfl
      · exact loadTheme_private_globals g _ _ out
    rcases hb : (LoadFromFile env g fs path freshInstance).1 with _ | _
    · simp only [ApplyPath, hb] at h ⊢
      simpa using hpres freshInstance
    · rw [ApplyPath] at h
      simp [hb] at h

/-- C8 witness: applying from an empty filesystem fails and leaves the
demo global state untouched. -/
theorem C8_witness :
    (ApplyPath env0 demoGlobals [] "theme.tdesktop-theme").1 = false ∧
    (ApplyPath env0 demoGlobals [] "theme.tdesktop-theme").2 = demoGlobals :=
  ⟨rfl, C8_failed_apply_preserves_state.2 env0 demoGlobals [] "theme.tdesktop-theme" rfl⟩

/-! ## Hex digit facts (for C4/C5) -/

/-- The characters the source's `readHexUchar` accepts. -/
def isHexDigitChar (c : Char) : Bool :=
  (48 ≤ c.toNat ∧ c.toNat ≤ 57) ∨ (97 ≤ c.toNat ∧ c.toNat ≤ 102) ∨
    (65 ≤ c.toNat ∧ c.toNat ≤ 70)

/-- The numeric value of a hex digit, stated independently of the bit
fiddling in the source. -/
def hexDigitVal (c : Char) : Nat :=
  if 48 ≤ c.toNat ∧ c.toNat ≤ 57 then c.toNat - 48
  else if 97 ≤ c.toNat ∧ c.toNat ≤ 102 then c.toNat - 87
  else c.toNat - 55

set_option maxRecDepth 4000 in
theorem land_255_of_lt : ∀ x < 256, x &&& 255 = x := by decide

theorem readHexUchar_hex {c : Char} (h : isHexDigitChar c = true) :
    readHexUchar c = (hexDigitVal c, false) ∧ hexDigitVal c < 16 := by
  simp only [isHexDigitChar, decide_eq_true_eq] at h
  unfold readHexUchar hexDigitVal
  rcases h with h | h | h
  · rw [if_pos h, if_pos h, land_255_of_lt _ (by omega)]
    exact ⟨rfl, by omega⟩
  · have h9 : ¬ (48 ≤ c.toNat ∧ c.toNat ≤ 57) := by omega
    rw [if_neg h9, if_pos h, if_neg h9, if_pos h,
      land_255_of_lt _ (by omega)]
    refine ⟨by rw [show c.toNat + 10 - 97 = c.toNat - 87 by omega], by omega⟩
  · have h9 : ¬ (48 ≤ c.toNat ∧ c.toNat ≤ 57) := by omega
    have ha : ¬ (97 ≤ c.toNat ∧ c.toNat ≤ 102) := by omega
    rw [if_neg h9, if_neg ha, if_pos h, if_neg h9, if_neg ha,
      land_255_of_lt _ (by omega)]
    refine ⟨by rw [show c.toNat + 10 - 65 = c.toNat - 55 by omega], by omega⟩

theorem readHexUchar_bad {c : Char} (h : isHexDigitChar c = false) :
    readHexUchar c = (0xFF, true) := by
  simp only [isHexDigitChar, decide_eq_false_iff_not, not_or] at h
  unfold readHexUchar
  rw [if_neg h.1, if_neg h.2.1, if_neg h.2.2]

set_option maxRecDepth 4000 in
theorem hex_combine : ∀ x < 16, ∀ y < 16, ((x &&& 15) <<< 4) ||| (y &&& 15) = 16 * x + y := by
  decide

theorem readHexUchar2_hex {c1 c2 : Char} (h1 : isHexDigitChar c1 = true)
    (h2 : isHexDigitChar c2 = true) :
    readHexUchar2 c1 c2 = (16 * hexDigitVal c1 + hexDigitVal c2, false) := by
  obtain ⟨e1, b1⟩ := readHexUchar_hex h1
  obtain ⟨e2, b2⟩ := readHexUchar_hex h2
  unfold readHexUchar2
  rw [e1, e2]
  simp [hex_combine _ b1 _ b2]

theorem readHexUchar2_bad {c1 c2 : Char}
    (h : isHexDigitChar c1 = false ∨ isHexDigitChar c2 = false) :
    (readHexUchar2 c1 c2).2 = true := by
  unfold readHexUchar2
  rcases h with h | h
  · rw [readHexUchar_bad h]
    simp
  · rw [readHexUchar_bad h]
    rcases hv : readHexUchar c1 with ⟨v, e⟩
    simp

/-! ## Parse loop stepping lemmas -/

theorem readNameAndValue_nil : readNameAndValue [] = .finished := rfl

theorem ne_nil_of_entry {s name value rest : List Char}
    (he : readNameAndValue s = .entry name value rest) : s ≠ [] := by
  intro h
  rw [h, readNameAndValue_nil] at he
  cases he

theorem loadColorSchemeGo_entry {fuel : Nat} {s name value rest : List Char}
    {pal : PaletteMap} {uns : Unsupported}
    (he : readNameAndValue s = .entry name value rest) :
    loadColorSchemeGo (fuel + 1) s pal uns =
      (let v := unsLookup uns value value
       let r := setColorSchemeValue name v pal
       match r.1 with
       | .Bad => (false, r.2)
       | .NotFound => loadColorSchemeGo fuel rest r.2 (unsInsert uns name v)
       | .Ok => loadColorSchemeGo fuel rest r.2 uns) := by
  have hs : s ≠ [] := ne_nil_of_entry he
  simp only [loadColorSchemeGo, if_neg hs, he]

theorem loadColorSchemeGo_failed {fuel : Nat} {s : List Char}
    {pal : PaletteMap} {uns : Unsupported}
    (he : readNameAndValue s = .failed) :
    loadColorSchemeGo (fuel + 1) s pal uns = (false, pal) := by
  have hs : s ≠ [] := by
    intro h
    rw [h, readNameAndValue_nil] at he
    cases he
  simp only [loadColorSchemeGo, if_neg hs, he]

theorem loadColorSchemeGo_ws {fuel : Nat} {s : List Char}
    {pal : PaletteMap} {uns : Unsupported}
    (hw : s.dropWhile isWsChar = []) :
    loadColorSchemeGo (fuel + 1) s pal uns = (true, pal) := by
  by_cases hs : s = []
  · simp [loadColorSchemeGo, hs]
  · have hf : readNameAndValue s = .finished := by
      simp only [readNameAndValue, hw, if_pos]
    simp only [loadColorSchemeGo, if_neg hs, hf]

/-! ## C4 — hex color value parsing -/

/-- The RGBA color that the spec's pairwise reading of six hex digits
denotes (alpha defaulting to 255). -/
def specHexColor6 (d1 d2 d3 d4 d5 d6 : Char) : RGBA :=
  ⟨16 * hexDigitVal d1 + hexDigitVal d2,
   16 * hexDigitVal d3 + hexDigitVal d4,
   16 * hexDigitVal d5 + hexDigitVal d6, 255⟩

/-- The RGBA color denoted by eight hex digits (explicit alpha). -/
def specHexColor8 (d1 d2 d3 d4 d5 d6 d7 d8 : Char) : RGBA :=
  ⟨16 * hexDigitVal d1 + hexDigitVal d2,
   16 * hexDigitVal d3 + hexDigitVal d4,
   16 * hexDigitVal d5 + hexDigitVal d6,
   16 * hexDigitVal d7 + hexDigitVal d8⟩

theorem setColorSchemeValue_hex6 (name : List Char) (d1 d2 d3 d4 d5 d6 : Char)
    (pal : PaletteMap)
    (h : ∀ c ∈ [d1, d2, d3, d4, d5, d6], isHexDigitChar c = true) :
    setColorSchemeValue name ['#', d1, d2, d3, d4, d5, d6] pal =
      (if (palSetColor pal name (specHexColor6 d1 d2 d3 d4 d5 d6)).2 then SetResult.Ok
       else SetResult.NotFound,
       (palSetColor pal name (specHexColor6 d1 d2 d3 d4 d5 d6)).1) := by
  simp only [List.mem_cons, List.not_mem_nil, or_false, forall_eq_or_imp, forall_eq] at h
  obtain ⟨h1, h2, h3, h4, h5, h6⟩ := h
  simp only [setColorSchemeValue, List.getD_cons_zero, List.getD_cons_succ,
    List.length_cons, List.length_nil]
  rw [if_pos (by simp), readHexUchar2_hex h1 h2, readHexUchar2_hex h3 h4,
    readHexUchar2_hex h5 h6]
  simp [specHexColor6]

theorem setColorSchemeValue_hex8 (name : List Char) (d1 d2 d3 d4 d5 d6 d7 d8 : Char)
    (pal : PaletteMap)
    (h : ∀ c ∈ [d1, d2, d3, d4, d5, d6, d7, d8], isHexDigitChar c = true) :
    setColorSchemeValue name ['#', d1, d2, d3, d4, d5, d6, d7, d8] pal =
      (if (palSetColor pal name (specHexColor8 d1 d2 d3 d4 d5 d6 d7 d8)).2 then SetResult.Ok
       else SetResult.NotFound,
       (palSetColor pal name (specHexColor8 d1 d2 d3 d4 d5 d6 d7 d8)).1) := by
  simp only [List.mem_cons, List.not_mem_nil, or_false, forall_eq_or_imp, forall_eq] at h
  obtain ⟨h1, h2, h3, h4, h5, h6, h7, h8⟩ := h
  simp only [setColorSchemeValue, List.getD_cons_zero, List.getD_cons_succ,
    List.length_cons, List.length_nil]
  rw [if_pos (by simp), readHexUchar2_hex h1 h2, readHexUchar2_hex h3 h4,
    readHexUchar2_hex h5 h6, readHexUchar2_hex h7 h8]
  simp [specHexColor8]

theorem setColorSchemeValue_hex6_bad (name : List Char) (d1 d2 d3 d4 d5 d6 : Char)
    (pal : PaletteMap)
    (h : ∃ c ∈ [d1, d2, d3, d4, d5, d6], isHexDigitChar c = false) :
    setColorSchemeValue name ['#', d1, d2, d3, d4, d5, d6] pal = (.Bad, pal) := by
  obtain ⟨c, hc, hbad⟩ := h
  have hflag : (readHexUchar2 d1 d2).2 = true ∨ (readHexUchar2 d3 d4).2 = true ∨
      (readHexUchar2 d5 d6).2 = true := by
    simp only [List.mem_cons, List.not_mem_nil, or_false] at hc
    rcases hc with rfl | rfl | rfl | rfl | rfl | rfl
    · exact Or.inl (readHexUchar2_bad (Or.inl hbad))
    · exact Or.inl (readHexUchar2_bad (Or.inr hbad))
    · exact Or.inr (Or.inl (readHexUchar2_bad (Or.inl hbad)))
    · exact Or.inr (Or.inl (readHexUchar2_bad (Or.inr hbad)))
    · exact Or.inr (Or.inr (readHexUchar2_bad (Or.inl hbad)))
    · exact Or.inr (Or.inr (readHexUchar2_bad (Or.inr hbad)))
  simp only [setColorSchemeValue, List.getD_cons_zero, List.getD_cons_succ,
    List.length_cons, List.length_nil]
  rw [if_pos (by simp)]
  rcases h12 : readHexUchar2 d1 d2 with ⟨v1, e1⟩
  rcases h34 : readHexUchar2 d3 d4 with ⟨v3, e3⟩
  rcases h56 : readHexUchar2 d5 d6 with ⟨v5, e5⟩
  rw [h12, h34, h56] at hflag
  simp only at hflag
  rcases hflag with h | h | h <;> simp [h]

theorem setColorSchemeValue_hex8_bad (name : List Char)
    (d1 d2 d3 d4 d5 d6 d7 d8 : Char) (pal : PaletteMap)
    (h : ∃ c ∈ [d1, d2, d3, d4, d5, d6, d7, d8], isHexDigitChar c = false) :
    setColorSchemeValue name ['#', d1, d2, d3, d4, d5, d6, d7, d8] pal = (.Bad, pal) := by
  obtain ⟨c, hc, hbad⟩ := h
  have hflag : (readHexUchar2 d1 d2).2 = true ∨ (readHexUchar2 d3 d4).2 = true ∨
      (readHexUchar2 d5 d6).2 = true ∨ (readHexUchar2 d7 d8).2 = true := by
    simp only [List.mem_cons, List.not_mem_nil, or_false] at hc
    rcases hc with rfl | rfl | rfl | rfl | rfl | rfl | rfl | rfl
    · exact Or.inl (readHexUchar2_bad (Or.inl hbad))
    · exact Or.inl (readHexUchar2_bad (Or.inr hbad))
    · exact Or.inr (Or.inl (readHexUchar2_bad (Or.inl hbad)))
    · exact Or.inr (Or.inl (readHexUchar2_bad (Or.inr hbad)))
    · exact Or.inr (Or.inr (Or.inl (readHexUchar2_bad (Or.inl hbad))))
    · exact Or.inr (Or.inr (Or.inl (readHexUchar2_bad (Or.inr hbad))))
    · exact Or.inr (Or.inr (Or.inr (readHexUchar2_bad (Or.inl hbad))))
    · exact Or.inr (Or.inr (Or.inr (readHexUchar2_bad (Or.inr hbad))))
  simp only [setColorSchemeValue, List.getD_cons_zero, List.getD_cons_succ,
    List.length_cons, List.length_nil]
  rw [if_pos (by simp)]
  rcases h12 : readHexUchar2 d1 d2 with ⟨v1, e1⟩
  rcases h34 : readHexUchar2 d3 d4 with ⟨v3, e3⟩
  rcases h56 : readHexUchar2 d5 d6 with ⟨v5, e5⟩
  rcases h78 : readHexUchar2 d7 d8 with ⟨v7, e7⟩
  rw [h12, h34, h56, h78] at hflag
  simp only at hflag
  rcases hflag with h | h | h | h <;> simp [h]

/-- C4: a `#`-token of exactly 7 or 9 characters parses as hex channels
read pairwise (alpha defaulting to 255 in the 7-character form, explicit
in the 9-character form), and any non-hex-digit character in such a token
is fatal: `setColorSchemeValue` reports `Bad` leaving the palette
untouched, and the parse loop aborts the whole scheme with failure. -/
theorem C4_hex_color_tokens :
    (∀ (name : List Char) (d1 d2 d3 d4 d5 d6 : Char) (pal : PaletteMap),
      (∀ c ∈ [d1, d2, d3, d4, d5, d6], isHexDigitChar c = true) →
      setColorSchemeValue name ['#', d1, d2, d3, d4, d5, d6] pal =
        (if (palSetColor pal name (specHexColor6 d1 d2 d3 d4 d5 d6)).2 then .Ok
         else .NotFound,
         (palSetColor pal name (specHexColor6 d1 d2 d3 d4 d5 d6)).1)) ∧
    (∀ (name : List Char) (d1 d2 d3 d4 d5 d6 d7 d8 : Char) (pal : PaletteMap),
      (∀ c ∈ [d1, d2, d3, d4, d5, d6, d7, d8], isHexDigitChar c = true) →
      setColorSchemeValue name ['#', d1, d2, d3, d4, d5, d6, d7, d8] pal =
        (if (palSetColor pal name (specHexColor8 d1 d2 d3 d4 d5 d6 d7 d8)).2 then .Ok
         else .NotFound,
         (palSetColor pal name (specHexColor8 d1 d2 d3 d4 d5 d6 d7 d8)).1)) ∧
    (∀ (name : List Char) (d1 d2 d3 d4 d5 d6 : Char) (pal : PaletteMap),
      (∃ c ∈ [d1, d2, d3, d4, d5, d6], isHexDigitChar c = false) →
      setColorSchemeValue name ['#', d1, d2, d3, d4, d5, d6] pal = (.Bad, pal)) ∧
    (∀ (name : List Char) (d1 d2 d3 d4 d5 d6 d7 d8 : Char) (pal : PaletteMap),
      (∃ c ∈ [d1, d2, d3, d4, d5, d6, d7, d8], isHexDigitChar c = false) →
      setColorSchemeValue name ['#', d1, d2, d3, d4, d5, d6, d7, d8] pal = (.Bad, pal)) ∧
    (∀ (fuel : Nat) (s name value rest : List Char) (pal : PaletteMap) (uns : Unsupported),
      readNameAndValue s = .entry name value rest →
      (setColorSchemeValue name (unsLookup uns value value) pal).1 = .Bad →
      loadColorSchemeGo (fuel + 1) s pal uns =
        (false, (setColorSchemeValue name (unsLookup uns value value) pal).2)) := by
  refine ⟨setColorSchemeValue_hex6, setColorSchemeValue_hex8,
    setColorSchemeValue_hex6_bad, setColorSchemeValue_hex8_bad, ?_⟩
  intro fuel s name value rest pal uns he hb
  rw [loadColorSchemeGo_entry he]
  rcases hsv : setColorSchemeValue name (unsLookup uns value value) pal with ⟨res, pal'⟩
  rw [hsv] at hb
  simp only at hb
  subst hb
  simp [hsv]

/-- C4 witness: `"#336699"` parses to RGBA(0x33,0x66,0x99,255) applied to
the known name `a`, `"#33669980"` carries alpha 0x80, and the token
`"#33669g"` (a non-hex digit in a 7-character token) is fatal. -/
theorem C4_witness :
    ((∀ c ∈ ['3', '3', '6', '6', '9', '9'], isHexDigitChar c = true) ∧
      setColorSchemeValue "a".toList ['#', '3', '3', '6', '6', '9', '9'] demoPalAB =
        (if (palSetColor demoPalAB "a".toList (specHexColor6 '3' '3' '6' '6' '9' '9')).2
          then .Ok else .NotFound,
         (palSetColor demoPalAB "a".toList (specHexColor6 '3' '3' '6' '6' '9' '9')).1)) ∧
    ((∀ c ∈ ['3', '3', '6', '6', '9', '9', '8', '0'], isHexDigitChar c = true) ∧
      setColorSchemeValue "a".toList ['#', '3', '3', '6', '6', '9', '9', '8', '0'] demoPalAB =
        (if (palSetColor demoPalAB "a".toList
              (specHexColor8 '3' '3' '6' '6' '9' '9' '8' '0')).2
          then .Ok else .NotFound,
         (palSetColor demoPalAB "a".toList
           (specHexColor8 '3' '3' '6' '6' '9' '9' '8' '0')).1)) ∧
    ((∃ c ∈ ['3', '3', '6', '6', '9', 'g'], isHexDigitChar c = false) ∧
      setColorSchemeValue "a".toList ['#', '3', '3', '6', '6', '9', 'g'] demoPalAB =
        (.Bad, demoPalAB)) :=
  ⟨⟨by decide, C4_hex_color_tokens.1 "a".toList '3' '3' '6' '6' '9' '9' demoPalAB (by decide)⟩,
   ⟨by decide, C4_hex_color_tokens.2.1 "a".toList '3' '3' '6' '6' '9' '9' '8' '0' demoPalAB
      (by decide)⟩,
   ⟨by decide, C4_hex_color_tokens.2.2.1 "a".toList '3' '3' '6' '6' '9' 'g' demoPalAB
      (by decide)⟩⟩

/-! ## C5 — wrong-length '#' tokens -/

/-- C5 counterexample: the claim says `"a: #fff000; b: #000;"` fails
because `#000` is 4 characters; in the code the scheme *succeeds* — the
wrong-length token falls into the named-reference branch and is only a
warning.  The entry `a` is applied and stays applied. -/
theorem C5_counterexample :
    (loadColorScheme "a: #fff000; b: #000;".toList demoPalAB).1 = true ∧
    palLookup (loadColorScheme "a: #fff000; b: #000;".toList demoPalAB).2 "a".toList =
      some ⟨255, 240, 0, 255⟩ := by
  exact ⟨rfl, rfl⟩

/-- C5 (amended): a value token beginning with `#` whose length is not 7
or 9 is **not** a fatal error: it is treated as a named-color reference;
since no palette name matches it, `setColorSchemeValue` reports `NotFound`
(a logged warning) leaving the palette unchanged, the loop records the
pair in the unsupported map and continues, and the example scheme
`"a: #fff000; b: #000;"` loads successfully with `a` applied (entries
applied before a later entry are never corrupted by it). -/
theorem C5_wrong_length_hash_not_fatal :
    (∀ (name value : List Char) (pal : PaletteMap),
      value.getD 0 ' ' = '#' → value.length ≠ 7 → value.length ≠ 9 →
      palLookup pal value = none →
      setColorSchemeValue name value pal = (.NotFound, pal)) ∧
    (∀ (fuel : Nat) (s name value rest : List Char) (pal : PaletteMap) (uns : Unsupported),
      readNameAndValue s = .entry name value rest →
      (setColorSchemeValue name (unsLookup uns value value) pal).1 = .NotFound →
      loadColorSchemeGo (fuel + 1) s pal uns =
        loadColorSchemeGo fuel rest
          (setColorSchemeValue name (unsLookup uns value value) pal).2
          (unsInsert uns name (unsLookup uns value value))) ∧
    (loadColorScheme "a: #fff000; b: #000;".toList demoPalAB =
      (true, [("a".toList, ⟨255, 240, 0, 255⟩), ("b".toList, ⟨0, 0, 0, 255⟩)])) := by
  refine ⟨?_, ?_, by decide⟩
  · intro name value pal h0 h7 h9 hlook
    simp only [setColorSchemeValue]
    rw [if_neg (by tauto)]
    simp [palSetNamed, hlook]
  · intro fuel s name value rest pal uns he hnf
    rw [loadColorSchemeGo_entry he]
    rcases hsv : setColorSchemeValue name (unsLookup uns value value) pal with ⟨res, pal'⟩
    rw [hsv] at hnf
    simp only at hnf
    subst hnf
    simp [hsv]

/-- C5 witness: the wrong-length token `#000` against the demo palette
reports `NotFound` with the palette untouched. -/
theorem C5_witness :
    ("#000".toList.getD 0 ' ' = '#' ∧ "#000".toList.length ≠ 7 ∧
      "#000".toList.length ≠ 9 ∧ palLookup demoPalAB "#000".toList = none) ∧
    setColorSchemeValue "b".toList "#000".toList demoPalAB = (.NotFound, demoPalAB) :=
  ⟨⟨rfl, by decide, by decide, by decide⟩,
    C5_wrong_length_hash_not_fatal.1 "b".toList "#000".toList demoPalAB rfl
      (by decide) (by decide) (by decide)⟩

/-! ## C7 — indirection through the unsupported map -/

/-- C7 counterexample: with only `c` a known palette name, the scheme
`"a: #112233; b: a; c: b;"` ends with `c` bound to RGBA(0x11,0x22,0x33,255)
— the claim asserts `c` does *not* receive `#112233`, but the code resolves
the two-step chain because the unsupported map stores substituted values. -/
theorem C7_counterexample :
    (loadColorScheme "a: #112233; b: a; c: b;".toList demoPalC).1 = true ∧
    palLookup (loadColorScheme "a: #112233; b: a; c: b;".toList demoPalC).2 "c".toList =
      some ⟨17, 34, 51, 255⟩ := by
  exact ⟨rfl, rfl⟩

/-- C7 (amended): each entry's value is substituted through the
unsupported map exactly once, but a `NotFound` entry is recorded with its
*already substituted* value, so chains of references resolve transitively:
in `"a: #112233; b: a; c: b;"` (only `c` known) the name `c` **does**
receive `#112233`. -/
theorem C7_indirection_stores_resolved :
    (∀ (fuel : Nat) (s name value rest : List Char) (pal : PaletteMap) (uns : Unsupported),
      readNameAndValue s = .entry name value rest →
      (setColorSchemeValue name (unsLookup uns value value) pal).1 = .NotFound →
      loadColorSchemeGo (fuel + 1) s pal uns =
        loadColorSchemeGo fuel rest
          (setColorSchemeValue name (unsLookup uns value value) pal).2
          (unsInsert uns name (unsLookup uns value value))) ∧
    (loadColorScheme "a: #112233; b: a; c: b;".toList demoPalC =
      (true, [("c".toList, ⟨17, 34, 51, 255⟩)])) := by
  refine ⟨?_, by decide⟩
  intro fuel s name value rest pal uns he hnf
  rw [loadColorSchemeGo_entry he]
  rcases hsv : setColorSchemeValue name (unsLookup uns value value) pal with ⟨res, pal'⟩
  rw [hsv] at hnf
  simp only at hnf
  subst hnf
  simp [hsv]

/-- C7 witness: one loop step over `"x: y;"` with `y` remembered as
`#112233` in the unsupported map records `x ↦ #112233` (the substituted
value, not `y`). -/
theorem C7_witness :
    (readNameAndValue "x: y;".toList =
        .entry "x".toList "y".toList [] ∧
      (setColorSchemeValue "x".toList
        (unsLookup [("y".toList, "#112233".toList)] "y".toList "y".toList)
        demoPalC).1 = .NotFound) ∧
    loadColorSchemeGo 1 "x: y;".toList demoPalC [("y".toList, "#112233".toList)] =
      loadColorSchemeGo 0 []
        (setColorSchemeValue "x".toList
          (unsLookup [("y".toList, "#112233".toList)] "y".toList "y".toList) demoPalC).2
        (unsInsert [("y".toList, "#112233".toList)] "x".toList
          (unsLookup [("y".toList, "#112233".toList)] "y".toList "y".toList)) :=
  ⟨⟨by decide, by decide⟩,
    C7_indirection_stores_resolved.1 0 "x: y;".toList "x".toList "y".toList []
      demoPalC [("y".toList, "#112233".toList)] (by decide) (by decide)⟩

/-! ## C9 — when the parse loop succeeds -/

/-- C9 counterexample: `"a: #zz0000;"` has no structural violation (its
shape is identical to the accepted `"a: #aa0000;"`), yet the scheme fails
— a malformed 7-character `#`-value also aborts, so "succeeds exactly when
end of input is reached without a structural violation" is too strong. -/
theorem C9_counterexample :
    loadColorScheme "a: #zz0000;".toList demoPalAB = (false, demoPalAB) ∧
    loadColorScheme "a: #aa0000;".toList demoPalAB =
      (true, [("a".toList, ⟨170, 0, 0, 255⟩), ("b".toList, ⟨0, 0, 0, 255⟩)]) := by
  exact ⟨by decide, by decide⟩

/-- A `Bad` outcome of `setColorSchemeValue` always leaves the palette
sink untouched (the fatal return happens before any write). -/
theorem setColorSchemeValue_bad_pal (name value : List Char) (pal : PaletteMap)
    (h : (setColorSchemeValue name value pal).1 = .Bad) :
    (setColorSchemeValue name value pal).2 = pal := by
  revert h
  unfold setColorSchemeValue
  repeat' split
  all_goals intro h
  any_goals rfl
  all_goals cases h

/-- C9 (amended): end of input with no name read is success; each listed
structural violation (missing `:` or `;`, end of input mid-token — every
`failed` outcome of `readNameAndValue`) aborts the scheme with failure;
but success additionally requires every applied value to be well-formed (a
malformed 7/9-character `#`-value aborts, C4) and the content to be within
the 1 MiB size cap. -/
theorem C9_success_conditions :
    (∀ (content : List Char) (pal : PaletteMap),
      content.length > kThemeSchemeSizeLimit →
      loadColorScheme content pal = (false, pal)) ∧
    (∀ (content : List Char) (pal : PaletteMap),
      content.length ≤ kThemeSchemeSizeLimit →
      (stripComments content).dropWhile isWsChar = [] →
      loadColorScheme content pal = (true, pal)) ∧
    (∀ (fuel : Nat) (s : List Char) (pal : PaletteMap) (uns : Unsupported),
      readNameAndValue s = .failed →
      loadColorSchemeGo (fuel + 1) s pal uns = (false, pal)) ∧
    (∀ (fuel : Nat) (s name value rest : List Char) (pal : PaletteMap) (uns : Unsupported),
      readNameAndValue s = .entry name value rest →
      (setColorSchemeValue name (unsLookup uns value value) pal).1 = .Bad →
      loadColorSchemeGo (fuel + 1) s pal uns = (false, pal)) := by
  refine ⟨?_, ?_, ?_, ?_⟩
  · intro content pal h
    simp [loadColorScheme, h]
  · intro content pal hlen hws
    rw [loadColorScheme, if_neg (by omega)]
    exact loadColorSchemeGo_ws hws
  · intro fuel s pal uns hf
    exact loadColorSchemeGo_failed hf
  · intro fuel s name value rest pal uns he hb
    have h2 := setColorSchemeValue_bad_pal name (unsLookup uns value value) pal hb
    rw [loadColorSchemeGo_entry he]
    rcases hsv : setColorSchemeValue name (unsLookup uns value value) pal with ⟨res, pal'⟩
    rw [hsv] at hb h2
    simp only at hb h2
    subst hb
    subst h2
    simp [hsv]

/-- C9 witness: oversized content fails, whitespace-only content succeeds
untouched, `"a"` (end of input mid-entry) fails, and the structurally
clean `"a: #zz0000;"` aborts on its bad value. -/
theorem C9_witness :
    ((List.replicate (kThemeSchemeSizeLimit + 1) ' ').length > kThemeSchemeSizeLimit ∧
      loadColorScheme (List.replicate (kThemeSchemeSizeLimit + 1) ' ') demoPalAB =
        (false, demoPalAB)) ∧
    (("  ".toList.length ≤ kThemeSchemeSizeLimit ∧
        (stripComments "  ".toList).dropWhile isWsChar = []) ∧
      loadColorScheme "  ".toList demoPalAB = (true, demoPalAB)) ∧
    ((readNameAndValue "a".toList = .failed) ∧
      loadColorSchemeGo 1 "a".toList demoPalAB [] = (false, demoPalAB)) ∧
    ((readNameAndValue "a: #zz0000;".toList =
        .entry "a".toList "#zz0000".toList [] ∧
      (setColorSchemeValue "a".toList
        (unsLookup [] "#zz0000".toList "#zz0000".toList) demoPalAB).1 = .Bad) ∧
      loadColorSchemeGo 1 "a: #zz0000;".toList demoPalAB [] = (false, demoPalAB)) :=
  ⟨⟨by rw [List.length_replicate]; omega,
      C9_success_conditions.1 _ demoPalAB (by rw [List.length_replicate]; omega)⟩,
   ⟨⟨by decide, by decide⟩,
      C9_success_conditions.2.1 "  ".toList demoPalAB (by decide) (by decide)⟩,
   ⟨by decide, C9_success_conditions.2.2.1 0 "a".toList demoPalAB [] (by decide)⟩,
   ⟨⟨by decide, by decide⟩,
      C9_success_conditions.2.2.2 0 "a: #zz0000;".toList "a".toList
        "#zz0000".toList [] demoPalAB [] (by decide) (by decide)⟩⟩

/-! ## C3 — background probing order -/

theorem readFileContentA_found {file : Archive} {n name : String}
    {bytes : List Nat} {limit : Nat}
    (h : file.find? (fun e => e.1 = name) = some (n, some bytes))
    (hl : bytes.length ≤ limit) :
    readFileContentA file name limit = (.Loaded, bytes) := by
  rw [readFileContentA, h]
  simp only
  rw [if_neg (by omega)]

theorem readFileContentA_notFound {file : Archive} {name : String} {limit : Nat}
    (h : file.find? (fun e => e.1 = name) = none) :
    readFileContentA file name limit = (.NotFound, []) := by
  rw [readFileContentA, h]

theorem loadBackground_all_absent {file : Archive}
    (h1 : file.find? (fun e => e.1 = "background.jpg") = none)
    (h2 : file.find? (fun e => e.1 = "background.png") = none)
    (h3 : file.find? (fun e => e.1 = "tiled.jpg") = none)
    (h4 : file.find? (fun e => e.1 = "tiled.png") = none) :
    loadBackground file = (true, [], true) := by
  simp [loadBackground, loadBackgroundFromFile,
    readFileContentA_notFound h1, readFileContentA_notFound h2,
    readFileContentA_notFound h3, readFileContentA_notFound h4]

/-- C3: background extraction probes `background.jpg`, `background.png`,
`tiled.jpg`, `tiled.png` in that fixed order; the first entry found wins;
the tiled flag is true exactly when the winning entry is a `tiled.*` one
(an archive with only `tiled.png` yields tiled, an archive with both
`background.jpg` and `tiled.png` selects `background.jpg` untiled); and an
archive with all four absent still loads successfully with no background
(the theme may supply a palette only). -/
theorem C3_background_probing :
    (∀ (file : Archive) (n : String) (B : List Nat),
      file.find? (fun e => e.1 = "background.jpg") = some (n, some B) →
      B.length ≤ kThemeBackgroundSizeLimit →
      loadBackground file = (true, B, false)) ∧
    (∀ (file : Archive) (n : String) (B : List Nat),
      file.find? (fun e => e.1 = "background.jpg") = none →
      file.find? (fun e => e.1 = "background.png") = some (n, some B) →
      B.length ≤ kThemeBackgroundSizeLimit →
      loadBackground file = (true, B, false)) ∧
    (∀ (file : Archive) (n : String) (B : List Nat),
      file.find? (fun e => e.1 = "background.jpg") = none →
      file.find? (fun e => e.1 = "background.png") = none →
      file.find? (fun e => e.1 = "tiled.jpg") = some (n, some B) →
      B.length ≤ kThemeBackgroundSizeLimit →
      loadBackground file = (true, B, true)) ∧
    (∀ (file : Archive) (n : String) (B : List Nat),
      file.find? (fun e => e.1 = "background.jpg") = none →
      file.find? (fun e => e.1 = "background.png") = none →
      file.find? (fun e => e.1 = "tiled.jpg") = none →
      file.find? (fun e => e.1 = "tiled.png") = some (n, some B) →
      B.length ≤ kThemeBackgroundSizeLimit →
      loadBackground file = (true, B, true)) ∧
    (∀ file : Archive,
      file.find? (fun e => e.1 = "background.jpg") = none →
      file.find? (fun e => e.1 = "background.png") = none →
      file.find? (fun e => e.1 = "tiled.jpg") = none →
      file.find? (fun e => e.1 = "tiled.png") = none →
      loadBackground file = (true, [], true)) ∧
    (∀ (file : Archive) (g : Globals) (content : List Nat) (inst : ThemeInstance)
        (n : String) (S : List Nat),
      file.find? (fun e => e.1 = "colors.tdesktop-theme") = some (n, some S) →
      S.length ≤ kThemeSchemeSizeLimit →
      (loadColorScheme (bytesToChars S) inst.palette).1 = true →
      file.find? (fun e => e.1 = "background.jpg") = none →
      file.find? (fun e => e.1 = "background.png") = none →
      file.find? (fun e => e.1 = "tiled.jpg") = none →
      file.find? (fun e => e.1 = "tiled.png") = none →
      (loadTheme g (some file) content (some inst)).ok = true ∧
      (loadTheme g (some file) content (some inst)).out =
        some { inst with palette := (loadColorScheme (bytesToChars S) inst.palette).2 } ∧
      (loadTheme g (some file) content (some inst)).cache.background = []) := by
  refine ⟨?_, ?_, ?_, ?_, ?_, ?_⟩
  · intro file n B h hl
    simp [loadBackground, loadBackgroundFromFile, readFileContentA_found h hl]
  · intro file n B h1 h hl
    simp [loadBackground, loadBackgroundFromFile, readFileContentA_notFound h1,
      readFileContentA_found h hl]
  · intro file n B h1 h2 h hl
    simp [loadBackground, loadBackgroundFromFile, readFileContentA_notFound h1,
      readFileContentA_notFound h2, readFileContentA_found h hl]
  · intro file n B h1 h2 h3 h hl
    simp [loadBackground, loadBackgroundFromFile, readFileContentA_notFound h1,
      readFileContentA_notFound h2, readFileContentA_notFound h3,
      readFileContentA_found h hl]
  · intro file h1 h2 h3 h4
    exact loadBackground_all_absent h1 h2 h3 h4
  · intro file g content inst n S hc hsl hok h1 h2 h3 h4
    have hbg := loadBackground_all_absent h1 h2 h3 h4
    rcases hsch : loadColorScheme (bytesToChars S) inst.palette with ⟨okS, palS⟩
    rw [hsch] at hok
    simp only at hok
    subst hok
    refine ⟨?_, ?_, ?_⟩ <;>
      simp [loadTheme, readFileContentA_found hc hsl, sinkPalette, writeSinkPalette,
        hsch, hbg, Cached.default]

/-- C3 witness: an archive with only `tiled.png` yields that content with
the tiled flag set; one with both `background.jpg` and `tiled.png` selects
`background.jpg` untiled; an empty archive loads with no background, and
a palette-only theme archive fully loads with no background image. -/
theorem C3_witness :
    loadBackground [("tiled.png", some [9])] = (true, [9], true) ∧
    loadBackground [("background.jpg", some [1]), ("tiled.png", some [9])] =
      (true, [1], false) ∧
    loadBackground [] = (true, [], true) ∧
    ((loadTheme demoGlobals (some [("colors.tdesktop-theme", some [])])
        [1, 2, 3, 4] (some freshInstance)).ok = true ∧
      (loadTheme demoGlobals (some [("colors.tdesktop-theme", some [])])
        [1, 2, 3, 4] (some freshInstance)).out =
        some { freshInstance with
          palette := (loadColorScheme (bytesToChars []) freshInstance.palette).2 } ∧
      (loadTheme demoGlobals (some [("colors.tdesktop-theme", some [])])
        [1, 2, 3, 4] (some freshInstance)).cache.background = []) :=
  ⟨C3_background_probing.2.2.2.1 [("tiled.png", some [9])] "tiled.png" [9]
      rfl rfl rfl rfl (by decide),
   C3_background_probing.1 [("background.jpg", some [1]), ("tiled.png", some [9])]
      "background.jpg" [1] rfl (by decide),
   C3_background_probing.2.2.2.2.1 [] rfl rfl rfl rfl,
   C3_background_probing.2.2.2.2.2 [("colors.tdesktop-theme", some [])] demoGlobals
      [1, 2, 3, 4] freshInstance "colors.tdesktop-theme" [] rfl (by decide) (by decide)
      rfl rfl rfl rfl⟩

/-! ## C6 — tiling synthesis -/

theorem flatten_replicate_length {α : Type} (n : Nat) (L : List α) :
    ((List.replicate n L).flatten).length = n * L.length := by
  induction n with
  | zero => simp
  | succ k ih =>
    rw [List.replicate_succ, List.flatten_cons, List.length_append, ih]
    ring

theorem flatten_replicate_getD {α : Type} (n : Nat) (L : List α) (d : α) :
    ∀ (q r : Nat), q < n → r < L.length →
      ((List.replicate n L).flatten).getD (q * L.length + r) d = L.getD r d := by
  induction n with
  | zero =>
    intro q r hq _
    omega
  | succ k ih =>
    intro q r hq hr
    rw [List.replicate_succ, List.flatten_cons]
    cases q with
    | zero =>
      rw [Nat.zero_mul, Nat.zero_add]
      exact List.getD_append _ _ d r hr
    | succ p =>
      have hlen : L.length ≤ (p + 1) * L.length + r := by
        have := Nat.le_add_right (L.length) (p * L.length + r)
        calc L.length ≤ L.length + (p * L.length + r) := Nat.le_add_right _ _
          _ = (p + 1) * L.length + r := by ring
      rw [List.getD_append_right _ _ d _ hlen]
      have harith : (p + 1) * L.length + r - L.length = p * L.length + r := by
        have : (p + 1) * L.length + r = L.length + (p * L.length + r) := by ring
        omega
      rw [harith]
      exact ih p r (by omega) hr

theorem dupRow_length (rx : Nat) (r : List Nat) :
    (dupRow rx r).length = rx * r.length :=
  flatten_replicate_length rx r

/-- C6: when a prepared background image is below the 512-unit threshold
in either axis, the tiled pixmap is the synthesized canvas whose
dimensions are `width*ceil(512/width)` by `height*ceil(512/height)`
(ceiling division written `(512 + d - 1) / d`), the canvas is a
well-formed pixel matrix of those dimensions, and every `width × height`
sub-block of the canvas equals the source image pixel-for-pixel; when
both dimensions meet the threshold the tiled pixmap is the very same
pixmap as the main one. -/
theorem C6_tiling (img : Image) (hwf : img.wf) (hw : 0 < img.width)
    (hh : 0 < img.height) :
    (img.width < kMinimumTiledSize ∨ img.height < kMinimumTiledSize →
      (preparedPixmaps img).2 = makeTiledImage img ∧
      (makeTiledImage img).width =
        img.width * ((kMinimumTiledSize + img.width - 1) / img.width) ∧
      (makeTiledImage img).height =
        img.height * ((kMinimumTiledSize + img.height - 1) / img.height) ∧
      (makeTiledImage img).wf ∧
      (∀ bx qy x y : Nat,
        bx < (kMinimumTiledSize + img.width - 1) / img.width →
        qy < (kMinimumTiledSize + img.height - 1) / img.height →
        x < img.width → y < img.height →
        (makeTiledImage img).pixel (bx * img.width + x) (qy * img.height + y) =
          img.pixel x y)) ∧
    (¬ (img.width < kMinimumTiledSize ∨ img.height < kMinimumTiledSize) →
      (preparedPixmaps img).2 = (preparedPixmaps img).1) := by
  obtain ⟨hlen, hrows⟩ := hwf
  constructor
  · intro hsmall
    refine ⟨by rw [preparedPixmaps, if_pos hsmall], rfl, rfl, ?_, ?_⟩
    · constructor
      · show ((List.replicate _ _).flatten).length = img.height * _
        rw [flatten_replicate_length, List.length_map, hlen]
        ring
      · intro r hr
        simp only [makeTiledImage] at hr
        rw [List.mem_flatten] at hr
        obtain ⟨block, hblock, hrb⟩ := hr
        rw [List.mem_replicate] at hblock
        rw [hblock.2] at hrb
        rw [List.mem_map] at hrb
        obtain ⟨row, hrow, hdup⟩ := hrb
        rw [← hdup, dupRow_length, hrows row hrow]
        show _ = img.width * _
        ring
    · intro bx qy x y hbx hqy hx hy
      have hyR : y < (img.rows.map
          (dupRow ((kMinimumTiledSize + img.width - 1) / img.width))).length := by
        rw [List.length_map, hlen]
        exact hy
      unfold Image.pixel makeTiledImage
      simp only
      have hstep1 :
          ((List.replicate ((kMinimumTiledSize + img.height - 1) / img.height)
              (img.rows.map (dupRow ((kMinimumTiledSize + img.width - 1) / img.width)))).flatten).getD
            (qy * img.height + y) [] =
          (img.rows.map (dupRow ((kMinimumTiledSize + img.width - 1) / img.width))).getD y [] := by
        have := flatten_replicate_getD
          ((kMinimumTiledSize + img.height - 1) / img.height)
          (img.rows.map (dupRow ((kMinimumTiledSize + img.width - 1) / img.width)))
          ([] : List Nat) qy y hqy hyR
        rwa [List.length_map, hlen] at this
      rw [hstep1]
      have hyr : y < img.rows.length := by omega
      rw [List.getD_eq_getElem _ _ hyR, List.getD_eq_getElem _ _ hyr,
        List.getElem_map]
      have hrowlen : img.rows[y].length = img.width :=
        hrows _ (List.getElem_mem hyr)
      have hstep2 :
          (dupRow ((kMinimumTiledSize + img.width - 1) / img.width)
              img.rows[y]).getD (bx * img.width + x) 0 =
            img.rows[y].getD x 0 := by
        have := flatten_replicate_getD
          ((kMinimumTiledSize + img.width - 1) / img.width) img.rows[y]
          (0 : Nat) bx x hbx (by omega)
        rwa [hrowlen] at this
      exact hstep2
  · intro hbig
    rw [preparedPixmaps, if_neg hbig]

/-- C6 witness: a 1×1 image is below the threshold (its canvas formula
gives 512 repeats per axis), and a 512×512 image aliases its tiled pixmap. -/
theorem C6_witness :
    (Image.wf ⟨1, 1, [[7]]⟩ ∧ (0:Nat) < 1 ∧
      ((1:Nat) < kMinimumTiledSize ∨ (1:Nat) < kMinimumTiledSize) ∧
      (preparedPixmaps ⟨1, 1, [[7]]⟩).2 = makeTiledImage ⟨1, 1, [[7]]⟩) ∧
    (Image.wf ⟨512, 512, List.replicate 512 (List.replicate 512 0)⟩ ∧
      (preparedPixmaps ⟨512, 512, List.replicate 512 (List.replicate 512 0)⟩).2 =
        (preparedPixmaps ⟨512, 512, List.replicate 512 (List.replicate 512 0)⟩).1) :=
  ⟨⟨by decide, by decide, by decide,
      ((C6_tiling ⟨1, 1, [[7]]⟩ (by decide) (by decide) (by decide)).1
        (by decide)).1⟩,
   ⟨by constructor
       · exact List.length_replicate _ _
       · intro r hr
         rw [List.eq_of_mem_replicate hr]
         exact List.length_replicate _ _,
     (C6_tiling ⟨512, 512, List.replicate 512 (List.replicate 512 0)⟩
        (by constructor
            · exact List.length_replicate _ _
            · intro r hr
              rw [List.eq_of_mem_replicate hr]
              exact List.length_replicate _ _)
        (by decide) (by decide)).2 (by decide)⟩⟩

/-! ## CRC-32 burst-error facts (for C2) -/

/-- Inverse of one CRC bit step (each step is a bijection on 32-bit
states: bit 31 of the output recovers the consumed low bit). -/
def crcUnstep (c : Nat) : Nat :=
  if c >>> 31 = 1 then 2 * (c ^^^ crcPoly) + 1 else 2 * c

theorem two_pow_32 : (2 : Nat) ^ 32 = 4294967296 := by norm_num

theorem two_pow_31 : (2 : Nat) ^ 31 = 2147483648 := by norm_num

theorem crcStep1_lt {c : Nat} (h : c < 2 ^ 32) : crcStep1 c < 2 ^ 32 := by
  unfold crcStep1
  have h1 : c >>> 1 < 2 ^ 32 := by
    rw [Nat.shiftRight_eq_div_pow, two_pow_32] at *
    omega
  split
  · exact Nat.xor_lt_two_pow h1 (by rw [two_pow_32]; norm_num [crcPoly])
  · simpa using h1

theorem crcUnstep_crcStep1 {c : Nat} (h : c < 2 ^ 32) :
    crcUnstep (crcStep1 c) = c := by
  have hhalf : c >>> 1 = c / 2 := rfl
  have hlt : c / 2 < 2 ^ 31 := by
    rw [two_pow_31]
    rw [two_pow_32] at h
    omega
  rcases Nat.mod_two_eq_zero_or_one c with hm | hm
  · have hstep : crcStep1 c = c / 2 := by
      unfold crcStep1
      rw [if_neg (by omega), hhalf, Nat.xor_zero]
    rw [hstep]
    unfold crcUnstep
    have hbit : (c / 2) >>> 31 = 0 := by
      rw [Nat.shiftRight_eq_div_pow]
      exact Nat.div_eq_of_lt hlt
    rw [hbit, if_neg (by omega)]
    omega
  · have hstep : crcStep1 c = (c / 2) ^^^ crcPoly := by
      unfold crcStep1
      rw [if_pos hm, hhalf]
    have hb31 : ((c / 2) ^^^ crcPoly).testBit 31 = true := by
      rw [Nat.testBit_xor, Nat.testBit_lt_two_pow hlt]
      decide
    have hge : 2 ^ 31 ≤ (c / 2) ^^^ crcPoly := Nat.testBit_implies_ge hb31
    have hlt2 : (c / 2) ^^^ crcPoly < 2 ^ 32 :=
      Nat.xor_lt_two_pow (by rw [two_pow_32] at *; omega)
        (by rw [two_pow_32]; norm_num [crcPoly])
    have hsh : ((c / 2) ^^^ crcPoly) >>> 31 = 1 := by
      rw [Nat.shiftRight_eq_div_pow]
      rw [two_pow_31] at hge ⊢
      rw [two_pow_32] at hlt2
      omega
    rw [hstep]
    unfold crcUnstep
    rw [if_pos hsh, Nat.xor_cancel_right]
    omega

theorem crcStepN_lt (k : Nat) : ∀ {c : Nat}, c < 2 ^ 32 → crcStep1^[k] c < 2 ^ 32 := by
  induction k with
  | zero => intro c h; simpa using h
  | succ n ih =>
    intro c h
    rw [Function.iterate_succ_apply]
    exact ih (crcStep1_lt h)

theorem crcStepN_inj (k : Nat) :
    ∀ {a b : Nat}, a < 2 ^ 32 → b < 2 ^ 32 →
      crcStep1^[k] a = crcStep1^[k] b → a = b := by
  induction k with
  | zero => intro a b _ _ h; simpa using h
  | succ n ih =>
    intro a b ha hb h
    rw [Function.iterate_succ_apply, Function.iterate_succ_apply] at h
    have := ih (crcStep1_lt ha) (crcStep1_lt hb) h
    calc a = crcUnstep (crcStep1 a) := (crcUnstep_crcStep1 ha).symm
      _ = crcUnstep (crcStep1 b) := by rw [this]
      _ = b := crcUnstep_crcStep1 hb

theorem crcByte_lt {c b : Nat} (hc : c < 2 ^ 32) (hb : b < 256) :
    crcByte c b < 2 ^ 32 :=
  crcStepN_lt 8 (Nat.xor_lt_two_pow hc (by rw [two_pow_32]; omega))

theorem crcByte_state_inj {a b x : Nat} (ha : a < 2 ^ 32) (hb : b < 2 ^ 32)
    (hx : x < 256) (h : crcByte a x = crcByte b x) : a = b := by
  have hax : a ^^^ x < 2 ^ 32 := Nat.xor_lt_two_pow ha (by rw [two_pow_32]; omega)
  have hbx : b ^^^ x < 2 ^ 32 := Nat.xor_lt_two_pow hb (by rw [two_pow_32]; omega)
  have := crcStepN_inj 8 hax hbx h
  have h2 : a ^^^ x ^^^ x = b ^^^ x ^^^ x := by rw [this]
  rwa [Nat.xor_cancel_right, Nat.xor_cancel_right] at h2

theorem crcByte_byte_inj {s x y : Nat} (hs : s < 2 ^ 32) (hx : x < 256)
    (hy : y < 256) (hne : x ≠ y) : crcByte s x ≠ crcByte s y := by
  intro h
  have hsx : s ^^^ x < 2 ^ 32 := Nat.xor_lt_two_pow hs (by rw [two_pow_32]; omega)
  have hsy : s ^^^ y < 2 ^ 32 := Nat.xor_lt_two_pow hs (by rw [two_pow_32]; omega)
  exact hne (Nat.xor_right_inj.mp (crcStepN_inj 8 hsx hsy h))

theorem crcRun_lt : ∀ (bytes : List Nat) (c : Nat), c < 2 ^ 32 →
    (∀ b ∈ bytes, b < 256) → bytes.foldl crcByte c < 2 ^ 32 := by
  intro bytes
  induction bytes with
  | nil => intro c hc _; simpa using hc
  | cons b bs ih =>
    intro c hc hall
    rw [List.foldl_cons]
    exact ih _ (crcByte_lt hc (hall b (by simp))) (fun u hu => hall u (by simp [hu]))

theorem crcRun_inj : ∀ (bytes : List Nat) (c₁ c₂ : Nat), c₁ < 2 ^ 32 → c₂ < 2 ^ 32 →
    (∀ b ∈ bytes, b < 256) → c₁ ≠ c₂ →
    bytes.foldl crcByte c₁ ≠ bytes.foldl crcByte c₂ := by
  intro bytes
  induction bytes with
  | nil => intro c₁ c₂ _ _ _ hne; simpa using hne
  | cons b bs ih =>
    intro c₁ c₂ h1 h2 hall hne
    rw [List.foldl_cons, List.foldl_cons]
    have hb : b < 256 := hall b (by simp)
    refine ih _ _ (crcByte_lt h1 hb) (crcByte_lt h2 hb)
      (fun u hu => hall u (by simp [hu])) ?_
    intro h
    exact hne (crcByte_state_inj h1 h2 hb h)

/-- CRC-32 distinguishes any two byte strings that differ in exactly one
byte: flipping one byte always changes the checksum. -/
theorem hashCrc32_flip (pre suf : List Nat) (x y : Nat)
    (hpre : ∀ b ∈ pre, b < 256) (hsuf : ∀ b ∈ suf, b < 256)
    (hx : x < 256) (hy : y < 256) (hne : x ≠ y) :
    hashCrc32 (pre ++ x :: suf) ≠ hashCrc32 (pre ++ y :: suf) := by
  unfold hashCrc32
  intro h
  have hinit : (0xFFFFFFFF : Nat) < 2 ^ 32 := by rw [two_pow_32]; norm_num
  have hs : pre.foldl crcByte 0xFFFFFFFF < 2 ^ 32 := crcRun_lt pre _ hinit hpre
  rw [List.foldl_append, List.foldl_append, List.foldl_cons, List.foldl_cons] at h
  have h2 : suf.foldl crcByte (crcByte (pre.foldl crcByte 0xFFFFFFFF) x) =
      suf.foldl crcByte (crcByte (pre.foldl crcByte 0xFFFFFFFF) y) :=
    Nat.xor_right_inj.mp (by rw [Nat.xor_comm _ 0xFFFFFFFF] at *
                             rw [Nat.xor_comm _ 0xFFFFFFFF] at h
                             exact h)
  exact crcRun_inj suf _ _ (crcByte_lt hs hx) (crcByte_lt hs hy) hsuf
    (crcByte_byte_inj hs hx hy hne) h2

/-! ## C2 — cache checksum validation -/

/-- A cache record with matching checksums for content `[1,2,3,4]` but a
malformed palette blob. -/
def cacheBadColors : Cached :=
  ⟨paletteRegistryChecksum, hashCrc32 [1, 2, 3, 4], none, [], false⟩

/-- C2 counterexample: the claim's "if and only if" fails — this cache
record has both checksums matching, yet `loadThemeFromCache` rejects it
(its palette blob does not load), so matching checksums alone do not
guarantee acceptance. -/
theorem C2_counterexample :
    cacheBadColors.paletteChecksum = paletteRegistryChecksum ∧
    cacheBadColors.contentChecksum = hashCrc32 [1, 2, 3, 4] ∧
    loadThemeFromCache demoGlobals [1, 2, 3, 4] cacheBadColors =
      (false, demoGlobals) :=
  ⟨rfl, rfl, rfl⟩

/-- C2 (amended): `loadThemeFromCache` accepts only if both checksums
match (acceptance implies both equalities); any mismatch of either
checksum rejects the cache leaving the state untouched; flipping one byte
of the content changes its CRC-32, rejects the cache, and makes `Load`
fall through to the full `loadTheme` reload; and when both checksums match
*and* the cached blobs are intact (the palette blob loads, the cached
background is empty or decodes) the cache is accepted and applied. -/
theorem C2_cache_checksums :
    (∀ (g : Globals) (content : List Nat) (cache : Cached),
      (loadThemeFromCache g content cache).1 = true →
      cache.paletteChecksum = paletteRegistryChecksum ∧
      cache.contentChecksum = hashCrc32 content) ∧
    (∀ (g : Globals) (content : List Nat) (cache : Cached),
      cache.paletteChecksum ≠ paletteRegistryChecksum ∨
        cache.contentChecksum ≠ hashCrc32 content →
      loadThemeFromCache g content cache = (false, g)) ∧
    (∀ (g : Globals) (arch : Option Archive) (cache : Cached)
        (pre suf : List Nat) (x y : Nat),
      (∀ b ∈ pre, b < 256) → (∀ b ∈ suf, b < 256) → x < 256 → y < 256 → x ≠ y →
      cache.contentChecksum = hashCrc32 (pre ++ x :: suf) →
      loadThemeFromCache g (pre ++ y :: suf) cache = (false, g) ∧
      (¬ (pre ++ y :: suf).length < 4 →
        LoadOp g arch (pre ++ y :: suf) cache =
          (if ¬ (loadTheme g arch (pre ++ y :: suf) none).ok then
            (false, (loadTheme g arch (pre ++ y :: suf) none).cache,
              (loadTheme g arch (pre ++ y :: suf) none).globals)
          else
            (true, (loadTheme g arch (pre ++ y :: suf) none).cache,
              (loadTheme g arch (pre ++ y :: suf) none).globals)))) ∧
    (∀ (g : Globals) (content : List Nat) (cache : Cached) (pal : PaletteMap),
      cache.paletteChecksum = paletteRegistryChecksum →
      cache.contentChecksum = hashCrc32 content →
      cache.colors = some pal →
      (cache.background = [] →
        loadThemeFromCache g content cache = (true, { g with palette := pal })) ∧
      (∀ img : Image, decodeImage cache.background = some img →
        cache.background ≠ [] →
        loadThemeFromCache g content cache =
          (true, applyBackgroundGlobal { g with palette := pal } img cache.tiled))) := by
  refine ⟨?_, ?_, ?_, ?_⟩
  · intro g content cache h
    by_cases h1 : cache.paletteChecksum = paletteRegistryChecksum
    · by_cases h2 : cache.contentChecksum = hashCrc32 content
      · exact ⟨h1, h2⟩
      · rw [loadThemeFromCache, if_neg (by simpa using h1), if_pos h2] at h
        cases h
    · rw [loadThemeFromCache, if_pos h1] at h
      cases h
  · intro g content cache h
    rcases h with h | h
    · rw [loadThemeFromCache, if_pos h]
    · by_cases h1 : cache.paletteChecksum = paletteRegistryChecksum
      · rw [loadThemeFromCache, if_neg (by simpa using h1), if_pos h]
      · rw [loadThemeFromCache, if_pos h1]
  · intro g arch cache pre suf x y hpre hsuf hx hy hne hcc
    have hflip : cache.contentChecksum ≠ hashCrc32 (pre ++ y :: suf) := by
      rw [hcc]
      exact hashCrc32_flip pre suf x y hpre hsuf hx hy hne
    have hrej : loadThemeFromCache g (pre ++ y :: suf) cache = (false, g) := by
      by_cases h1 : cache.paletteChecksum = paletteRegistryChecksum
      · rw [loadThemeFromCache, if_neg (by simpa using h1), if_pos hflip]
      · rw [loadThemeFromCache, if_pos h1]
    refine ⟨hrej, ?_⟩
    intro hlen
    rw [LoadOp, if_neg hlen, hrej]
    simp
  · intro g content cache pal h1 h2 hcol
    constructor
    · intro hbg
      rw [loadThemeFromCache, if_neg (by simpa using h1), if_neg (by simpa using h2),
        hbg, hcol]
      simp
    · intro img hdec hbg
      rw [loadThemeFromCache, if_neg (by simpa using h1), if_neg (by simpa using h2),
        hcol]
      simp only [if_neg hbg, hdec]

/-- C2 witness: a palette-checksum mismatch rejects; flipping the first
byte of `[1,2,3,4]` to `0` rejects the matching cache and `Load` falls
through to the full reload; and a fully intact cache for `[9,9,9,9]` is
accepted, installing its palette. -/
theorem C2_witness :
    ((cacheBadColors.paletteChecksum + 1 ≠ paletteRegistryChecksum ∨
        (⟨paletteRegistryChecksum + 1, 0, none, [], false⟩ : Cached).paletteChecksum ≠
          paletteRegistryChecksum) ∧
      loadThemeFromCache demoGlobals [1, 2, 3, 4]
        ⟨paletteRegistryChecksum + 1, 0, none, [], false⟩ = (false, demoGlobals)) ∧
    ((∀ b ∈ ([] : List Nat), b < 256) ∧ (∀ b ∈ [2, 3, 4], b < 256) ∧
      (1 : Nat) < 256 ∧ (0 : Nat) < 256 ∧ (1 : Nat) ≠ 0 ∧
      cacheBadColors.contentChecksum = hashCrc32 ([] ++ 1 :: [2, 3, 4]) ∧
      loadThemeFromCache demoGlobals ([] ++ 0 :: [2, 3, 4]) cacheBadColors =
        (false, demoGlobals) ∧
      LoadOp demoGlobals none ([] ++ 0 :: [2, 3, 4]) cacheBadColors =
        (if ¬ (loadTheme demoGlobals none ([] ++ 0 :: [2, 3, 4]) none).ok then
          (false, (loadTheme demoGlobals none ([] ++ 0 :: [2, 3, 4]) none).cache,
            (loadTheme demoGlobals none ([] ++ 0 :: [2, 3, 4]) none).globals)
        else
          (true, (loadTheme demoGlobals none ([] ++ 0 :: [2, 3, 4]) none).cache,
            (loadTheme demoGlobals none ([] ++ 0 :: [2, 3, 4]) none).globals))) ∧
    loadThemeFromCache demoGlobals [9, 9, 9, 9]
      ⟨paletteRegistryChecksum, hashCrc32 [9, 9, 9, 9], some demoPalC, [], false⟩ =
      (true, { demoGlobals with palette := demoPalC }) :=
  ⟨⟨Or.inr (by decide),
    C2_cache_checksums.2.1 demoGlobals [1, 2, 3, 4]
      ⟨paletteRegistryChecksum + 1, 0, none, [], false⟩ (Or.inl (by decide))⟩,
   ⟨by decide, by decide, by decide, by decide, by decide, rfl,
    (C2_cache_checksums.2.2.1 demoGlobals none cacheBadColors [] [2, 3, 4] 1 0
      (by decide) (by decide) (by decide) (by decide) (by decide) rfl).1,
    (C2_cache_checksums.2.2.1 demoGlobals none cacheBadColors [] [2, 3, 4] 1 0
      (by decide) (by decide) (by decide) (by decide) (by decide) rfl).2
      (by decide)⟩,
   (C2_cache_checksums.2.2.2 demoGlobals [9, 9, 9, 9]
      ⟨paletteRegistryChecksum, hashCrc32 [9, 9, 9, 9], some demoPalC, [], false⟩
      demoPalC rfl rfl rfl).1 rfl⟩

/-! ## State machine stepping equations (for C1) -/

theorem ensureStarted_some {e : Env} {g : Globals} {p : Image}
    (h : g.background.pixmap = some p) : ensureStarted e g = g := by
  unfold ensureStarted
  rw [if_neg (by rw [h]; simp)]

theorem setPreparedImage_background (env : Env) (g : Globals) (img : Image) :
    (setPreparedImage env g img).background =
      { g.background with
          pixmap := some (preparedPixmaps img).1
          pixmapForTiled := some (preparedPixmaps img).2 } := by
  unfold setPreparedImage
  dsimp only
  repeat' split
  all_goals rfl

theorem setPreparedImage_applying (env : Env) (g : Globals) (img : Image) :
    (setPreparedImage env g img).applying = g.applying := by
  unfold setPreparedImage
  dsimp only
  repeat' split
  all_goals rfl

theorem setPreparedImage_palette_theme {e : Env} {g : Globals} (img : Image)
    (h : g.background.id = kThemeBackground ∨ g.background.id = kTestingThemeBackground) :
    (setPreparedImage e g img).palette = g.palette := by
  unfold setPreparedImage
  rw [if_neg (by tauto)]

theorem setPreparedImage_palette_default {e : Env} {g : Globals} (img : Image)
    (h1 : g.background.id = kDefaultBackground)
    (h2 : g.applying.paletteForRevert = none)
    (h3 : e.hasTheme = false) :
    (setPreparedImage e g img).palette = g.palette := by
  unfold setPreparedImage
  rw [if_pos ⟨by rw [h1]; decide, by rw [h1]; decide⟩, h2, if_neg]
  simp [h1, h3, kDefaultBackground]

theorem setTileOp_eq {e : Env} {g : Globals} {p : Image} (t : Bool)
    (hpx : g.background.pixmap = some p) :
    setTileOp e g t = { g with background := { g.background with tile := t } } := by
  unfold setTileOp
  rw [ensureStarted_some hpx]
  dsimp only
  split
  · rfl
  · rename_i h
    have ht : g.background.tile = t := by simpa using h
    rw [← ht]

theorem saveForRevert_not_testing {e : Env} {g : Globals} {p : Image}
    (hpx : g.background.pixmap = some p)
    (h1 : g.background.id ≠ kTestingThemeBackground)
    (h2 : g.background.id ≠ kTestingDefaultBackground) :
    saveForRevert e g =
      { g with background :=
          { g.background with
              idForRevert := g.background.id
              imageForRevert := g.background.pixmap
              tileForRevert := g.background.tile } } := by
  unfold saveForRevert
  rw [ensureStarted_some hpx]
  dsimp only
  rw [if_pos ⟨h1, h2⟩]

theorem saveForRevert_testing {e : Env} {g : Globals} {p : Image}
    (hpx : g.background.pixmap = some p)
    (h : g.background.id = kTestingThemeBackground ∨
      g.background.id = kTestingDefaultBackground) :
    saveForRevert e g = g := by
  unfold saveForRevert
  rw [ensureStarted_some hpx]
  dsimp only
  rw [if_neg (by tauto)]

theorem setImage_testingTheme_some (env : Env) (g : Globals) (img : Image) :
    setImage env g kTestingThemeBackground (some img) =
      setPreparedImage env
        { g with background := { g.background with id := kTestingThemeBackground } } img := by
  simp [setImage, kTestingThemeBackground, kTestingDefaultBackground, kThemeBackground]

theorem setImage_testingTheme_none (env : Env) (g : Globals) :
    setImage env g kTestingThemeBackground none =
      setPreparedImage env
        { g with background := { g.background with id := kTestingDefaultBackground } }
        builtinDefaultImage := by
  simp [setImage, kTestingThemeBackground, kTestingDefaultBackground, kThemeBackground]

theorem setImage_testingDefault (env : Env) (g : Globals) (image : Option Image) :
    setImage env g kTestingDefaultBackground image =
      setPreparedImage env
        { g with background := { g.background with id := kTestingDefaultBackground } }
        builtinDefaultImage := by
  simp [setImage, kTestingThemeBackground, kTestingDefaultBackground, kThemeBackground]

theorem setImage_theme {g : Globals} (env : Env) {ti : Image} (image : Option Image)
    (hti : g.background.themeImage = some ti) :
    setImage env g kThemeBackground image =
      setPreparedImage env
        { g with background :=
            { g.background with id := kThemeBackground, tile := g.background.themeTile } }
        ti := by
  simp [setImage, hti, kThemeBackground, kTestingThemeBackground, kTestingDefaultBackground,
    kInitialBackground]

theorem setImage_default (env : Env) (g : Globals) (image : Option Image) :
    setImage env g kDefaultBackground image =
      setPreparedImage env
        { g with background := { g.background with id := kDefaultBackground } }
        (prepareBackgroundImage builtinDefaultImage) := by
  simp [setImage, kThemeBackground, kTestingThemeBackground, kTestingDefaultBackground,
    kInitialBackground, kDefaultBackground]

/-- Entering a preview from a non-testing state: `setTestingTheme`
snapshots (id, pixmap, tile) into the revert fields, moves to a testing
id, and leaves the theme image/tile and the pending record alone. -/
theorem setTestingTheme_enter {e : Env} {g : Globals} {p : Image}
    (theme : ThemeInstance)
    (hpx : g.background.pixmap = some p)
    (h1 : g.background.id ≠ kTestingThemeBackground)
    (h2 : g.background.id ≠ kTestingDefaultBackground)
    (hcond : theme.background.isSome = true ∨ g.background.id = kThemeBackground) :
    (setTestingTheme e g theme).background.idForRevert = g.background.id ∧
    (setTestingTheme e g theme).background.imageForRevert = some p ∧
    (setTestingTheme e g theme).background.tileForRevert = g.background.tile ∧
    ((setTestingTheme e g theme).background.id = kTestingThemeBackground ∨
      (setTestingTheme e g theme).background.id = kTestingDefaultBackground) ∧
    (setTestingTheme e g theme).background.themeImage = g.background.themeImage ∧
    (setTestingTheme e g theme).background.themeTile = g.background.themeTile ∧
    (setTestingTheme e g theme).applying = g.applying ∧
    (∃ q : Image, (setTestingTheme e g theme).background.pixmap = some q) := by
  unfold setTestingTheme
  rw [if_pos hcond]
  rw [saveForRevert_not_testing (e := e)
    (g := { g with palette := theme.palette }) (p := p) hpx h1 h2]
  dsimp only
  rcases hbg : theme.background with _ | img
  · rw [setImage_testingTheme_none]
    rw [setTileOp_eq theme.tiled (by rw [setPreparedImage_background])]
    simp [setPreparedImage_background, setPreparedImage_applying, hpx]
  · rw [setImage_testingTheme_some]
    rw [setTileOp_eq theme.tiled (by rw [setPreparedImage_background])]
    simp [setPreparedImage_background, setPreparedImage_applying, hpx]

/-- A preview without a background over a non-theme background: the else
branch of `setTestingTheme` re-sets the current image; every field of the
claim's interest except the palette and pixmaps is untouched. -/
theorem setTestingTheme_skip {e : Env} {g : Globals} {p : Image}
    (theme : ThemeInstance)
    (hpx : g.background.pixmap = some p)
    (hbg : theme.background = none)
    (hid : g.background.id = kDefaultBackground) :
    (setTestingTheme e g theme).background.id = kDefaultBackground ∧
    (setTestingTheme e g theme).background.tile = g.background.tile ∧
    (setTestingTheme e g theme).background.idForRevert = g.background.idForRevert ∧
    (setTestingTheme e g theme).background.imageForRevert =
      g.background.imageForRevert ∧
    (setTestingTheme e g theme).background.tileForRevert =
      g.background.tileForRevert ∧
    (setTestingTheme e g theme).background.themeImage = g.background.themeImage ∧
    (setTestingTheme e g theme).background.themeTile = g.background.themeTile ∧
    (setTestingTheme e g theme).applying = g.applying ∧
    (∃ q : Image, (setTestingTheme e g theme).background.pixmap = some q) := by
  unfold setTestingTheme
  rw [if_neg (by rw [hbg, hid]; simp [kDefaultBackground, kThemeBackground])]
  dsimp only
  rw [show ({ g with palette := theme.palette } : Globals).background.id =
      kDefaultBackground from hid]
  rw [setImage_default]
  simp [setPreparedImage_background, setPreparedImage_applying]

/-- A second preview while already in a testing state: the revert
snapshot, theme data and pending record are all preserved and the state
stays testing. -/
theorem setTestingTheme_testing {e : Env} {g : Globals} {p : Image}
    (theme : ThemeInstance)
    (hpx : g.background.pixmap = some p)
    (hid : g.background.id = kTestingThemeBackground ∨
      g.background.id = kTestingDefaultBackground) :
    (setTestingTheme e g theme).background.idForRevert = g.background.idForRevert ∧
    (setTestingTheme e g theme).background.imageForRevert =
      g.background.imageForRevert ∧
    (setTestingTheme e g theme).background.tileForRevert =
      g.background.tileForRevert ∧
    ((setTestingTheme e g theme).background.id = kTestingThemeBackground ∨
      (setTestingTheme e g theme).background.id = kTestingDefaultBackground) ∧
    (setTestingTheme e g theme).background.themeImage = g.background.themeImage ∧
    (setTestingTheme e g theme).background.themeTile = g.background.themeTile ∧
    (setTestingTheme e g theme).applying = g.applying ∧
    (∃ q : Image, (setTestingTheme e g theme).background.pixmap = some q) := by
  have hneq : g.background.id ≠ kThemeBackground := by
    rcases hid with h | h <;> rw [h] <;> decide
  unfold setTestingTheme
  by_cases hbg : theme.background.isSome = true
  · rw [if_pos (Or.inl hbg)]
    rw [saveForRevert_testing (e := e)
      (g := { g with palette := theme.palette }) (p := p) hpx hid]
    dsimp only
    rcases ho : theme.background with _ | img
    · rw [ho] at hbg
      cases hbg
    · rw [setImage_testingTheme_some]
      rw [setTileOp_eq theme.tiled (by rw [setPreparedImage_background])]
      simp [setPreparedImage_background, setPreparedImage_applying]
  · rw [if_neg (by simp [hbg, hneq])]
    dsimp only
    rcases hid with h | h
    · rw [show ({ g with palette := theme.palette } : Globals).background.id =
          kTestingThemeBackground from h]
      rw [show ({ g with palette := theme.palette } : Globals).background.pixmap =
          some p from hpx]
      rw [setImage_testingTheme_some]
      simp [setPreparedImage_background, setPreparedImage_applying]
    · rw [show ({ g with palette := theme.palette } : Globals).background.id =
          kTestingDefaultBackground from h]
      rw [setImage_testingDefault]
      simp [setPreparedImage_background, setPreparedImage_applying]

/-- Reverting out of a testing state whose snapshot points at the theme
background: the id comes back as theme-provided and the tile flag is
re-derived from `themeTile` (not from the snapshot), with no ambient
recoloring of the palette. -/
theorem revertBackground_testing_theme {e : Env} {g : Globals} {p w : Image}
    (hid : g.background.id = kTestingThemeBackground ∨
      g.background.id = kTestingDefaultBackground)
    (hIdR : g.background.idForRevert = kThemeBackground)
    (hti : g.background.themeImage = some w)
    (hpx : g.background.pixmap = some p) :
    (revertBackground e g).background.id = kThemeBackground ∧
    (revertBackground e g).background.tile = g.background.themeTile ∧
    (revertBackground e g).palette = g.palette := by
  unfold revertBackground
  rw [if_pos hid]
  dsimp only
  rw [setTileOp_eq (e := e) (g := g) (p := p) g.background.tileForRevert hpx]
  rw [show ({ g with background :=
      { g.background with tile := g.background.tileForRevert } } : Globals).background.idForRevert =
      kThemeBackground from hIdR]
  rw [setImage_theme e _
    (show ({ g with background :=
      { g.background with tile := g.background.tileForRevert } } : Globals).background.themeImage =
      some w from hti)]
  refine ⟨?_, ?_, ?_⟩
  · rw [setPreparedImage_background]
  · rw [setPreparedImage_background]
  · exact setPreparedImage_palette_theme _ (Or.inl rfl)

/-- Reverting out of a testing state whose snapshot points at the default
background with no stored theme: id, tile and palette are all restored
from the snapshot, with no ambient recoloring. -/
theorem revertBackground_testing_default {e : Env} {g : Globals} {p : Image}
    (hid : g.background.id = kTestingThemeBackground ∨
      g.background.id = kTestingDefaultBackground)
    (hIdR : g.background.idForRevert = kDefaultBackground)
    (hpx : g.background.pixmap = some p)
    (hpr : g.applying.paletteForRevert = none)
    (hth : e.hasTheme = false) :
    (revertBackground e g).background.id = kDefaultBackground ∧
    (revertBackground e g).background.tile = g.background.tileForRevert ∧
    (revertBackground e g).palette = g.palette := by
  unfold revertBackground
  rw [if_pos hid]
  dsimp only
  rw [setTileOp_eq (e := e) (g := g) (p := p) g.background.tileForRevert hpx]
  rw [show ({ g with background :=
      { g.background with tile := g.background.tileForRevert } } : Globals).background.idForRevert =
      kDefaultBackground from hIdR]
  rw [setImage_default]
  refine ⟨?_, ?_, ?_⟩
  · rw [setPreparedImage_background]
  · rw [setPreparedImage_background]
  · exact setPreparedImage_palette_default _ rfl hpr hth

/-- Reverting while not in a testing state over the default background
(no stored theme): the current image is re-set, everything of interest
stays put. -/
theorem revertBackground_nontesting_default {e : Env} {g : Globals} {p : Image}
    (hid : g.background.id = kDefaultBackground)
    (hpx : g.background.pixmap = some p)
    (hpr : g.applying.paletteForRevert = none)
    (hth : e.hasTheme = false) :
    (revertBackground e g).background.id = kDefaultBackground ∧
    (revertBackground e g).background.tile = g.background.tile ∧
    (revertBackground e g).palette = g.palette := by
  unfold revertBackground
  rw [if_neg (by rw [hid]; decide)]
  rw [hid, setImage_default]
  refine ⟨?_, ?_, ?_⟩
  · rw [setPreparedImage_background]
  · rw [setPreparedImage_background]
  · exact setPreparedImage_palette_default _ rfl hpr hth

/-- `Revert` first restores the snapshotted palette and clears the
pending record, then reverts the background state machine. -/
theorem RevertG_eq {e : Env} {g : Globals} {P : PaletteMap}
    (hP : g.applying.paletteForRevert = some P) :
    RevertG e g =
      revertBackground e { g with palette := P, applying := Applying.default } := by
  unfold RevertG
  rw [hP]

/-- C1 (amended): for a chain `Apply(themeA); Apply(themeB); Revert()`
started from a started, non-testing state with no pending preview, the
`paletteForRevert` snapshot is taken only by the first Apply and is not
overwritten by the second, and `Revert()` restores the palette, the
background id and the tile flag exactly — provided the starting
background is either the theme-provided one whose live tile flag agrees
with the theme's own (`revert` re-derives the tile from `themeTile`
there), or the default background with no theme stored (otherwise ambient
service-color re-derivation runs on revert). -/
theorem C1_chained_preview_revert (env : Env) (g : Globals) (A B : Preview)
    (hnt : g.background.id ≠ kTestingThemeBackground)
    (hnd : g.background.id ≠ kTestingDefaultBackground)
    (hpxe : ∃ px : Image, g.background.pixmap = some px)
    (hrev : g.applying.paletteForRevert = none)
    (hcase :
      (g.background.id = kThemeBackground ∧
        (∃ ti : Image, g.background.themeImage = some ti) ∧
        g.background.tile = g.background.themeTile) ∨
      (g.background.id = kDefaultBackground ∧ env.hasTheme = false)) :
    (ApplyPreview env (ApplyPreview env g A) B).applying.paletteForRevert =
      some g.palette ∧
    (RevertG env (ApplyPreview env (ApplyPreview env g A) B)).palette = g.palette ∧
    (RevertG env (ApplyPreview env (ApplyPreview env g A) B)).background.id =
      g.background.id ∧
    (RevertG env (ApplyPreview env (ApplyPreview env g A) B)).background.tile =
      g.background.tile := by
  obtain ⟨px, hpx⟩ := hpxe
  set apA : Applying :=
    { path := A.path, content := A.content, cached := A.inst.cached
      paletteForRevert := some g.palette } with hapA
  set gA : Globals := { g with applying := apA } with hgA
  have e1 : ApplyPreview env g A = setTestingTheme env gA A.inst := by
    unfold ApplyPreview
    rw [hrev]
    try rfl
  set g1 : Globals := setTestingTheme env gA A.inst with hg1
  rw [e1]
  rcases hcase with ⟨hidT, ⟨ti, hti⟩, htl⟩ | ⟨hidD, hthF⟩
  · -- theme-provided background
    obtain ⟨hA1, hA2, hA3, hA4, hA5, hA6, hA7, q1, hA8⟩ :=
      setTestingTheme_enter (e := env) (g := gA) (p := px) A.inst hpx hnt hnd
        (Or.inr hidT)
    have hg1pr : g1.applying.paletteForRevert = some g.palette := by
      rw [hg1, hA7]
    set apB : Applying :=
      { path := B.path, content := B.content, cached := B.inst.cached
        paletteForRevert := some g.palette } with hapB
    set gB : Globals := { g1 with applying := apB } with hgB
    have e2 : ApplyPreview env g1 B = setTestingTheme env gB B.inst := by
      unfold ApplyPreview
      rw [hg1pr]
      try rfl
    set g2 : Globals := setTestingTheme env gB B.inst with hg2
    rw [e2]
    obtain ⟨hB1, hB2, hB3, hB4, hB5, hB6, hB7, q2, hB8⟩ :=
      setTestingTheme_testing (e := env) (g := gB) (p := q1) B.inst hA8 hA4
    have h2pr : g2.applying.paletteForRevert = some g.palette := by
      rw [hg2, hB7]
    have h2idR : g2.background.idForRevert = kThemeBackground := by
      rw [hg2, hB1]
      show g1.background.idForRevert = _
      rw [hg1, hA1]
      exact hidT
    have h2ti : g2.background.themeImage = some ti := by
      rw [hg2, hB5]
      show g1.background.themeImage = _
      rw [hg1, hA5]
      exact hti
    have h2tt : g2.background.themeTile = g.background.themeTile := by
      rw [hg2, hB6]
      show g1.background.themeTile = _
      rw [hg1, hA6]
    rw [RevertG_eq (P := g.palette) h2pr]
    obtain ⟨r1, r2, r3⟩ := revertBackground_testing_theme (e := env)
      (g := { g2 with palette := g.palette, applying := Applying.default })
      (p := q2) (w := ti) hB4 h2idR h2ti hB8
    refine ⟨h2pr, ?_, ?_, ?_⟩
    · exact r3
    · rw [r1, hidT]
    · show _ = g.background.tile
      rw [r2, htl]
      exact h2tt
  · -- default background, no stored theme
    rcases hAbg : A.inst.background with _ | imgA
    · -- first preview has no background: stays on the default id
      obtain ⟨hA1, hA2, hA3, hA4, hA5, hA6, hA7, hA8, q1, hA9⟩ :=
        setTestingTheme_skip (e := env) (g := gA) (p := px) A.inst hpx hAbg hidD
      have hg1pr : g1.applying.paletteForRevert = some g.palette := by
        rw [hg1, hA8]
      set apB : Applying :=
        { path := B.path, content := B.content, cached := B.inst.cached
          paletteForRevert := some g.palette } with hapB
      set gB : Globals := { g1 with applying := apB } with hgB
      have e2 : ApplyPreview env g1 B = setTestingTheme env gB B.inst := by
        unfold ApplyPreview
        rw [hg1pr]
        try rfl
      set g2 : Globals := setTestingTheme env gB B.inst with hg2
      rw [e2]
      have hgBid : gB.background.id = kDefaultBackground := by
        rw [hgB]
        show g1.background.id = _
        rw [hg1, hA1]
      have hgBtile : gB.background.tile = g.background.tile := by
        rw [hgB]
        show g1.background.tile = _
        rw [hg1, hA2]
      rcases hBbg : B.inst.background with _ | imgB
      · -- second preview also has no background: never enters testing
        obtain ⟨hB1, hB2, hB3, hB4, hB5, hB6, hB7, hB8, q2, hB9⟩ :=
          setTestingTheme_skip (e := env) (g := gB) (p := q1) B.inst hA9 hBbg hgBid
        have h2pr : g2.applying.paletteForRevert = some g.palette := by
          rw [hg2, hB8]
        rw [RevertG_eq (P := g.palette) h2pr]
        have h2id : g2.background.id = kDefaultBackground := by
          rw [hg2, hB1]
        obtain ⟨r1, r2, r3⟩ := revertBackground_nontesting_default (e := env)
          (g := { g2 with palette := g.palette, applying := Applying.default })
          (p := q2) h2id hB9 rfl hthF
        refine ⟨h2pr, r3, ?_, ?_⟩
        · rw [r1, hidD]
        · show _ = g.background.tile
          rw [r2]
          show g2.background.tile = _
          rw [hg2, hB2, hgBtile]
      · -- second preview has a background: snapshot taken now
        obtain ⟨hB1, hB2, hB3, hB4, hB5, hB6, hB7, q2, hB8⟩ :=
          setTestingTheme_enter (e := env) (g := gB) (p := q1) B.inst hA9
            (by rw [hgBid]; decide) (by rw [hgBid]; decide)
            (Or.inl (by rw [hBbg]; rfl))
        have h2pr : g2.applying.paletteForRevert = some g.palette := by
          rw [hg2, hB7]
        rw [RevertG_eq (P := g.palette) h2pr]
        have h2idR : g2.background.idForRevert = kDefaultBackground := by
          rw [hg2, hB1, hgBid]
        obtain ⟨r1, r2, r3⟩ := revertBackground_testing_default (e := env)
          (g := { g2 with palette := g.palette, applying := Applying.default })
          (p := q2) hB4 h2idR hB8 rfl hthF
        refine ⟨h2pr, r3, ?_, ?_⟩
        · rw [r1, hidD]
        · show _ = g.background.tile
          rw [r2]
          show g2.background.tileForRevert = _
          rw [hg2, hB3]
          show gB.background.tile = _
          rw [hgBtile]
    · -- first preview has a background: snapshot taken by the first Apply
      obtain ⟨hA1, hA2, hA3, hA4, hA5, hA6, hA7, q1, hA8⟩ :=
        setTestingTheme_enter (e := env) (g := gA) (p := px) A.inst hpx hnt hnd
          (Or.inl (by rw [hAbg]; rfl))
      have hg1pr : g1.applying.paletteForRevert = some g.palette := by
        rw [hg1, hA7]
      set apB : Applying :=
        { path := B.path, content := B.content, cached := B.inst.cached
          paletteForRevert := some g.palette } with hapB
      set gB : Globals := { g1 with applying := apB } with hgB
      have e2 : ApplyPreview env g1 B = setTestingTheme env gB B.inst := by
        unfold ApplyPreview
        rw [hg1pr]
        try rfl
      set g2 : Globals := setTestingTheme env gB B.inst with hg2
      rw [e2]
      obtain ⟨hB1, hB2, hB3, hB4, hB5, hB6, hB7, q2, hB8⟩ :=
        setTestingTheme_testing (e := env) (g := gB) (p := q1) B.inst hA8 hA4
      have h2pr : g2.applying.paletteForRevert = some g.palette := by
        rw [hg2, hB7]
      rw [RevertG_eq (P := g.palette) h2pr]
      have h2idR : g2.background.idForRevert = kDefaultBackground := by
        rw [hg2, hB1]
        show g1.background.idForRevert = _
        rw [hg1, hA1]
        exact hidD
      obtain ⟨r1, r2, r3⟩ := revertBackground_testing_default (e := env)
        (g := { g2 with palette := g.palette, applying := Applying.default })
        (p := q2) hB4 h2idR hB8 rfl hthF
      refine ⟨h2pr, r3, ?_, ?_⟩
      · rw [r1, hidD]
      · show _ = g.background.tile
        rw [r2]
        show g2.background.tileForRevert = _
        rw [hg2, hB3]
        show g1.background.tileForRevert = _
        rw [hg1, hA3]

/-- A 512×512 stand-in theme/background image (dimension fields only are
relevant to the state machine). -/
def imgTheme : Image := ⟨512, 512, []⟩

/-- A started state showing the theme-provided background whose live tile
flag (true, e.g. toggled by the user via `setTile`) differs from the
theme's own tile flag (false). -/
def gThemeStart : Globals :=
  { palette := demoPalC
    background :=
      { id := kThemeBackground
        tile := true
        themeImage := some imgTheme
        themeTile := false
        pixmap := some imgTheme
        pixmapForTiled := some imgTheme
        idForRevert := kDefaultBackground
        imageForRevert := none
        tileForRevert := false }
    applying := Applying.default }

/-- First candidate preview (has a background, untiled). -/
def previewA : Preview :=
  ⟨some "A.tdesktop-theme", [1], ⟨demoPalAB, some imgTheme, false, Cached.default⟩⟩

/-- Second candidate preview (has a background, tiled). -/
def previewB : Preview :=
  ⟨some "B.tdesktop-theme", [2], ⟨demoPalAB, some imgTheme, true, Cached.default⟩⟩

/-- C1 counterexample: from the non-testing state `gThemeStart` (theme
background shown, live tile flag `true`, theme tile flag `false`), the
chain `Apply(A); Apply(B); Revert()` restores the palette and the
background id but **not** the tile flag: `revert`'s `setImage` on the
theme id re-derives `_tile` from `_themeTile` (line 393), so the claim's
"tile flag is restored to its pre-Apply value" fails. -/
theorem C1_counterexample :
    (gThemeStart.background.id ≠ kTestingThemeBackground ∧
      gThemeStart.background.id ≠ kTestingDefaultBackground ∧
      gThemeStart.applying.paletteForRevert = none ∧
      gThemeStart.background.pixmap = some imgTheme) ∧
    (RevertG env0 (ApplyPreview env0 (ApplyPreview env0 gThemeStart previewA)
        previewB)).palette = gThemeStart.palette ∧
    (RevertG env0 (ApplyPreview env0 (ApplyPreview env0 gThemeStart previewA)
        previewB)).background.id = gThemeStart.background.id ∧
    (RevertG env0 (ApplyPreview env0 (ApplyPreview env0 gThemeStart previewA)
        previewB)).background.tile ≠ gThemeStart.background.tile :=
  ⟨⟨by decide, by decide, rfl, rfl⟩, rfl, rfl, by decide⟩

/-- C1 witness: from the default-background demo state (no theme stored),
the chain `Apply(A); Apply(B); Revert()` restores palette, id and tile,
and the snapshot holds the original palette after both Applies. -/
theorem C1_witness :
    (demoGlobals.background.id ≠ kTestingThemeBackground ∧
      demoGlobals.background.id ≠ kTestingDefaultBackground ∧
      demoGlobals.applying.paletteForRevert = none ∧
      demoGlobals.background.id = kDefaultBackground ∧ env0.hasTheme = false) ∧
    ((ApplyPreview env0 (ApplyPreview env0 demoGlobals previewA)
        previewB).applying.paletteForRevert = some demoGlobals.palette ∧
      (RevertG env0 (ApplyPreview env0 (ApplyPreview env0 demoGlobals previewA)
          previewB)).palette = demoGlobals.palette ∧
      (RevertG env0 (ApplyPreview env0 (ApplyPreview env0 demoGlobals previewA)
          previewB)).background.id = demoGlobals.background.id ∧
      (RevertG env0 (ApplyPreview env0 (ApplyPreview env0 demoGlobals previewA)
          previewB)).background.tile = demoGlobals.background.tile) :=
  ⟨⟨by decide, by decide, rfl, rfl, rfl⟩,
    C1_chained_preview_revert env0 demoGlobals previewA previewB (by decide) (by decide)
      ⟨builtinDefaultImage, rfl⟩ rfl (Or.inr ⟨rfl, rfl⟩)⟩

end WindowTheme
